import Mathlib

/-! # Host-side harness of the Parallel-Programming workshops

A shallow embedding of the host programs `tutorial1.cpp`, `tutorial2.cpp`,
`tutorial3.cpp` and `LearningOpenCL/main.cpp`.

* Part 1 embeds the padding and partition arithmetic of `tutorial3.cpp`
  (lines 62-95): the input vector is a `List Int`, `size_t` quantities are
  natural numbers and the byte sizes wrap modulo `2 ^ 64`.
* Part 2 embeds the control flow of the four `main` functions as traces of
  events: every call into the OpenCL runtime is an operation that a fault
  environment may make fail. In `tutorial2.cpp` and `tutorial3.cpp` a failing
  call raises and the `try`/`catch` structure decides what is issued and
  printed afterwards; `tutorial1.cpp` and `main.cpp` are built without
  exceptions, so there a failing call returns a status.
* The argument loop of `tutorial1.cpp` and `tutorial3.cpp` is embedded with
  reads of `argv` that return an `Option`, and the uploads of a block are
  compared with the sizes of the host arrays and of the device buffers.
-/

set_option autoImplicit false

/-! ## Part 1: padding and partition arithmetic of `tutorial3.cpp` -/

namespace Tutorial3

/-- The constant `INT_MAX` of `<climits>` for the 32-bit `int` (`mytype`). -/
def INT_MAX : Int := 2147483647

/-- The constant `INT_MIN` of `<climits>` for the 32-bit `int` (`mytype`). -/
def INT_MIN : Int := -2147483648

/-- The value of `sizeof(mytype)`, `sizeof(int)` and `sizeof(float)`: four bytes. -/
def sizeof_mytype : Nat := 4

/-- One more than the largest `size_t`: byte sizes are computed modulo this. -/
def SIZE_RANGE : Nat := 2 ^ 64

/-- Line 62: `std::vector<mytype> A(10, 1)`, ten elements of value one. -/
def A_init : List Int := List.replicate 10 1

/-- Line 68: `size_t local_size = 10`. -/
def local_size : Nat := 10

/-- Line 69: `int neutral_element = -2`. -/
def neutral_element : Int := -2

/-- Line 70: `int min_value = -1`. -/
def min_value : Int := -1

/-- Line 71: `int max_value = 10`. -/
def max_value : Int := 10

/-- Line 93: `int nr_bins = 10`. -/
def nr_bins : Int := 10

/-- Line 73: `size_t padding_size = A.size() % local_size`. The remainder of an
unsigned division by zero is undefined in C++, modelled as `none`. -/
def padding_size (A : List Int) (local_size : Nat) : Option Nat :=
  if local_size = 0 then none else some (A.length % local_size)

/-- Lines 73-82: the padding step. When `padding_size` is non-zero a vector
`A_ext` of `local_size - padding_size` copies of `neutral_element` is inserted
at `A.end()`; otherwise `A` is left as it is. -/
def pad (A : List Int) (local_size : Nat) (neutral_element : Int) : Option (List Int) :=
  match padding_size A local_size with
  | none => none
  | some p =>
    if p ≠ 0 then
      let A_ext := List.replicate (local_size - p) neutral_element
      some (A ++ A_ext)
    else some A

/-- The host quantities computed on lines 73-95 from the input vector. -/
structure Plan where
  /-- The vector `A` after the padding step. -/
  A : List Int
  /-- Line 84: `input_elements = A.size()`. -/
  input_elements : Nat
  /-- Line 85: `input_size = A.size() * sizeof(mytype)`, a `size_t`. -/
  input_size : Nat
  /-- Line 86: `nr_groups = input_elements / local_size`. -/
  nr_groups : Nat
  /-- Line 89: `std::vector<int> min_value_vec(1, INT_MAX)`. -/
  min_value_vec : List Int
  /-- Line 90: `std::vector<int> max_value_vec(1, INT_MIN)`. -/
  max_value_vec : List Int
  /-- Line 94: `std::vector<mytype> B(nr_bins, 0)`. -/
  B : List Int
  /-- Line 95: `output_size = B.size() * sizeof(int)`, a `size_t`. -/
  output_size : Nat
  deriving DecidableEq, Repr

/-- Lines 73-95 of `tutorial3.cpp` for an input vector `A`, a work-group size
`local_size`, a padding value `neutral_element` and a bin count `nr_bins`.
`none` stands for the undefined remainder by a zero `local_size` on line 73. -/
def plan (A : List Int) (local_size : Nat) (neutral_element : Int) (nr_bins : Int) :
    Option Plan :=
  match pad A local_size neutral_element with
  | none => none
  | some A' =>
    let B : List Int := List.replicate nr_bins.toNat 0
    some
      { A := A'
        input_elements := A'.length
        input_size := (A'.length * sizeof_mytype) % SIZE_RANGE
        nr_groups := A'.length / local_size
        min_value_vec := List.replicate 1 INT_MAX
        max_value_vec := List.replicate 1 INT_MIN
        B := B
        output_size := (B.length * sizeof_mytype) % SIZE_RANGE }

/-- The sum of a vector, the scalar that a sum reduction of it produces. -/
def total (A : List Int) : Int := A.sum

/-- The minimum of a non-empty vector, the scalar `reduce_min` is to produce;
`none` on the empty vector. -/
def minimum (A : List Int) : Option Int :=
  match A with
  | [] => none
  | x :: xs => some (xs.foldl min x)

/-- The maximum of a non-empty vector, the scalar `reduce_max` is to produce;
`none` on the empty vector. -/
def maximum (A : List Int) : Option Int :=
  match A with
  | [] => none
  | x :: xs => some (xs.foldl max x)

/-- Whether a value lies in the histogram range `[min_value, max_value]`. -/
def in_range (min_value max_value x : Int) : Bool :=
  decide (min_value ≤ x) && decide (x ≤ max_value)

/-- The number of elements of a vector inside `[min_value, max_value]`: the
elements a histogram over that range counts. -/
def counted (min_value max_value : Int) (A : List Int) : Nat :=
  A.countP (in_range min_value max_value)

end Tutorial3

/-! ## Part 2: the host programs as traces of runtime calls and output -/

namespace Harness

/-- The device buffers declared by the four programs, under their host names. -/
inductive BufferId
  | buffer_A | buffer_B | buffer_C | buffer_min | buffer_max
  | dev_image_input | dev_image_output | dev_convolution_mask | dev_sobel_gx | grad_x
  | A_d | B_d | C_d
  deriving DecidableEq, Repr

/-- The host arrays that transfers read from or write to. -/
inductive HostId
  | A | B | C | min_value_vec | max_value_vec
  | image_input | convolution_mask | sobel_Gx | output_buffer
  | A_h | B_h | C_h
  deriving DecidableEq, Repr

/-- The `cl::Kernel` objects of the four programs, under their host names. -/
inductive KernelVar
  | kernel_1 | simple_hist | reduce_min_kernel | reduce_max_kernel | hist_kernel
  | scan_add_kernel
  | kernel_multadd | kernel_add | kernel_mul | kernel_addf | kernel_add2d
  | blur_kernel | gray_kernel | conv_kernel | edgingX | gamma_correct
  | simple_add
  deriving DecidableEq, Repr

/-- The kernel entry points looked up by name in the built program. -/
inductive KernelName
  | reduce_add_3 | hist_simple | reduce_min | reduce_max | hist_complex | scan_add
  | multadd | add | mul | addf | add2d
  | avg_filterND | rgb2gray | convolutionND | gamma_transform
  | simple_add
  deriving DecidableEq, Repr

/-- A value bound to a kernel parameter by `setArg`. -/
inductive Arg
  /-- A device buffer. -/
  | buffer (b : BufferId)
  /-- An `int` scalar. -/
  | int (v : Int)
  /-- A `float` scalar, given as a fraction. -/
  | float (num den : Nat)
  /-- A local-memory request `cl::Local(bytes)`. -/
  | local_bytes (bytes : Nat)
  deriving DecidableEq, Repr

/-- The three pieces of build information queried by the build handlers. -/
inductive BuildInfo
  | status | options | log
  deriving DecidableEq, Repr

/-- The calls of the image library made by `tutorial2.cpp`. -/
inductive ImageOp
  | load_input | display_input | make_output | display_output | wait_closed
  deriving DecidableEq, Repr

/-- A call into the OpenCL runtime, the helper header or the image library. -/
inductive Op
  | clGetPlatformIDs | clGetPlatformInfo | clGetDeviceIDs | clGetDeviceInfo
  | Device | Context
  | GetContext (platform_id device_id : Int)
  | GetPlatformName (platform_id : Int)
  | GetDeviceName (platform_id device_id : Int)
  | CommandQueue
  | AddSources
  | Program
  | build
  | getInfo_devices
  | getBuildInfo (what : BuildInfo)
  | Buffer (b : BufferId) (bytes : Nat)
  | enqueueWriteBuffer (b : BufferId) (bytes : Nat) (host : HostId)
  | enqueueFillBuffer (b : BufferId) (pattern : Int) (bytes : Nat)
  | Kernel (k : KernelVar) (name : KernelName)
  | setArg (k : KernelVar) (index : Nat) (arg : Arg)
  | enqueueNDRangeKernel (k : KernelVar) (global : List Nat) (loc : List Nat)
  | enqueueReadBuffer (b : BufferId) (bytes : Nat) (host : HostId)
  | getProfilingInfo_end | getProfilingInfo_start
  | GetFullProfilingInfo
  | image (c : ImageOp)
  deriving DecidableEq, Repr

/-- What a program writes to `std::cout` or `std::cerr`. -/
inductive Msg
  /-- The line `Runinng on <platform>, <device>`. -/
  | running_on
  /-- The lines `Current Device is:` and `Current Platform is:` of `main.cpp`. -/
  | current_device | current_platform
  /-- The line `Build Status: ...`. -/
  | build_status
  /-- The line `Build Options: ...`. -/
  | build_options
  /-- The line `Build Log: ...`. -/
  | build_log
  /-- The line `Error Building: <log>` of `main.cpp`. -/
  | error_building
  /-- The line `ERROR: <what>, <error string>` for the call that raised. -/
  | error (origin : Op)
  /-- The line `ERROR: <what>` for an image-library exception. -/
  | image_error (origin : Op)
  /-- A host vector printed as `<name> = ...`. -/
  | vector (host : HostId)
  /-- The image size printed by `tutorial2.cpp`. -/
  | image_size (n : Nat)
  /-- The line `Kernel Execution Time [ns]: ...`. -/
  | kernel_time
  /-- The full profiling information. -/
  | profiling_info
  /-- The result loop of `main.cpp`. -/
  | result
  deriving DecidableEq, Repr

/-- One observable step of a run. -/
inductive Event
  /-- The call was made (it may have raised). -/
  | issued (op : Op)
  /-- The message was written. -/
  | printed (m : Msg)
  deriving DecidableEq, Repr

/-- How a run of `main` ends. -/
inductive Outcome
  /-- The function `main` returned the code. -/
  | returned (code : Int)
  /-- The process left through `exit(code)`. -/
  | exited (code : Int)
  /-- The run reached undefined behaviour. -/
  | undefined
  deriving DecidableEq, Repr

/-- A run: what was issued and printed, in order, and how it ended. -/
structure Run where
  trace : List Event
  outcome : Outcome
  deriving DecidableEq, Repr

/-- A statement of straight-line host code. -/
inductive Stmt
  | call (op : Op)
  | print (m : Msg)
  deriving DecidableEq, Repr

/-- The event a statement leaves in the trace when it is reached. -/
def Stmt.event : Stmt → Event
  | .call op => .issued op
  | .print m => .printed m

/-- The result of running a block: its trace and the call that raised, if any. -/
structure Block where
  trace : List Event
  raised : Option Op
  deriving DecidableEq, Repr

/-- Runs a block of straight-line code in which a failing call raises an
exception (`cl::Error`, or `CImgException` for an image call): the statements
after the raising call are not reached. -/
def exec (fails : Op → Bool) : List Stmt → Block
  | [] => ⟨[], none⟩
  | .print m :: rest =>
    let r := exec fails rest
    ⟨.printed m :: r.trace, r.raised⟩
  | .call op :: rest =>
    if fails op then ⟨[.issued op], some op⟩
    else
      let r := exec fails rest
      ⟨.issued op :: r.trace, r.raised⟩

/-- Runs a block of straight-line code whose calls return a status code that
the program does not inspect (`main.cpp` and `tutorial1.cpp` are built without
exceptions): every statement is reached. -/
def exec_unchecked (ss : List Stmt) : List Event := ss.map Stmt.event

/-- The fault environment in which no call fails. -/
def no_faults : Op → Bool := fun _ => false

/-- The fault environment in which exactly the given call fails. -/
def only (bad : Op) : Op → Bool := fun op => decide (op = bad)

/-- Whether an event is a host-to-device upload or fill. -/
def Event.is_upload : Event → Bool
  | .issued (.enqueueWriteBuffer _ _ _) => true
  | .issued (.enqueueFillBuffer _ _ _) => true
  | _ => false

/-- Whether an event creates a kernel or binds one of its arguments. -/
def Event.is_kernel_setup : Event → Bool
  | .issued (.Kernel _ _) => true
  | .issued (.setArg _ _ _) => true
  | _ => false

/-- Whether an event is a kernel dispatch. -/
def Event.is_dispatch : Event → Bool
  | .issued (.enqueueNDRangeKernel _ _ _) => true
  | _ => false

/-- Whether an event is a device-to-host download. -/
def Event.is_download : Event → Bool
  | .issued (.enqueueReadBuffer _ _ _) => true
  | _ => false

/-- Whether an event is an error line written by one of the handlers. -/
def Event.is_error_report : Event → Bool
  | .printed (.error _) => true
  | .printed (.image_error _) => true
  | _ => false

/-- The part of a trace after the first attempt to build the program; empty
when the build was never attempted. -/
def after_build : List Event → List Event
  | [] => []
  | e :: rest => if e = .issued .build then rest else after_build rest

end Harness

/-! ### Blocks shared by the tutorial programs -/

namespace Harness

/-- The body of the build handler of the tutorials: three lines, each querying
the devices of the context and one piece of build information, then printing
it (`Build Status`, `Build Options`, `Build Log`). -/
def build_diagnostic : List Stmt :=
  [ .call .getInfo_devices, .call (.getBuildInfo .status), .print .build_status,
    .call .getInfo_devices, .call (.getBuildInfo .options), .print .build_options,
    .call .getInfo_devices, .call (.getBuildInfo .log), .print .build_log ]

/-- The host operations of the tutorials up to the creation of the program:
`GetContext`, the `Runinng on` line (printed once both names are obtained),
the command queue, `AddSources` and the `cl::Program` constructor. -/
def select_and_load (platform_id device_id : Int) : List Stmt :=
  [ .call (.GetContext platform_id device_id),
    .call (.GetPlatformName platform_id),
    .call (.GetDeviceName platform_id device_id),
    .print .running_on,
    .call .CommandQueue,
    .call .AddSources,
    .call .Program ]

/-- The profiling output that ends the tutorials: the two timestamps of
`prof_event`, the `Kernel Execution Time` line and the full profiling info. -/
def profiling_report : List Stmt :=
  [ .call .getProfilingInfo_end, .call .getProfilingInfo_start, .print .kernel_time,
    .call .GetFullProfilingInfo, .print .profiling_info ]

/-- The handler `catch (cl::Error err)` of `tutorial2.cpp` and `tutorial3.cpp`:
the line `ERROR: ...` for the call that raised, then `return 0`. -/
def report_error (trace : List Event) (origin : Op) : Run :=
  ⟨trace ++ [.printed (.error origin)], .returned 0⟩

end Harness

namespace Tutorial3

open Harness

/-- Lines 98-191 of `tutorial3.cpp`: buffer creation, the uploads, the creation
and binding of the six kernels, the single dispatch of `scan_add`, the
read-back of `buffer_B` and the output. `mn` and `mx` are `min_value_vec[0]`
and `max_value_vec[0]` as read on lines 153-154. -/
def device_operations (pl : Plan) (local_size : Nat) (mn mx : Int) : List Stmt :=
  let local_mem : Nat := (local_size * sizeof_mytype) % SIZE_RANGE
  let scan_mem : Nat := (pl.input_size * sizeof_mytype) % SIZE_RANGE
  ([ .call (.Buffer .buffer_A pl.input_size),
    .call (.Buffer .buffer_B pl.output_size),
    .call (.Buffer .buffer_min pl.output_size),
    .call (.Buffer .buffer_max pl.output_size),
    .call (.enqueueWriteBuffer .buffer_A pl.input_size .A),
    .call (.enqueueFillBuffer .buffer_B 0 pl.output_size),
    .call (.enqueueWriteBuffer .buffer_min pl.output_size .min_value_vec),
    .call (.enqueueWriteBuffer .buffer_max pl.output_size .max_value_vec),
    .call (.Kernel .kernel_1 .reduce_add_3),
    .call (.setArg .kernel_1 0 (.buffer .buffer_A)),
    .call (.setArg .kernel_1 1 (.buffer .buffer_B)),
    .call (.setArg .kernel_1 2 (.local_bytes local_mem)),
    .call (.Kernel .simple_hist .hist_simple),
    .call (.setArg .simple_hist 0 (.buffer .buffer_A)),
    .call (.setArg .simple_hist 1 (.buffer .buffer_B)),
    .call (.setArg .simple_hist 2 (.int nr_bins)),
    .call (.setArg .simple_hist 3 (.int neutral_element)),
    .call (.setArg .simple_hist 4 (.int min_value)),
    .call (.setArg .simple_hist 5 (.int max_value)),
    .call (.Kernel .reduce_min_kernel .reduce_min),
    .call (.setArg .reduce_min_kernel 0 (.buffer .buffer_A)),
    .call (.setArg .reduce_min_kernel 1 (.buffer .buffer_min)),
    .call (.setArg .reduce_min_kernel 2 (.local_bytes local_mem)),
    .call (.Kernel .reduce_max_kernel .reduce_max),
    .call (.setArg .reduce_max_kernel 0 (.buffer .buffer_A)),
    .call (.setArg .reduce_max_kernel 1 (.buffer .buffer_max)),
    .call (.setArg .reduce_max_kernel 2 (.local_bytes local_mem)),
    .call (.Kernel .hist_kernel .hist_complex),
    .call (.setArg .hist_kernel 0 (.buffer .buffer_A)),
    .call (.setArg .hist_kernel 1 (.buffer .buffer_B)),
    .call (.setArg .hist_kernel 2 (.int nr_bins)),
    .call (.setArg .hist_kernel 3 (.int mn)),
    .call (.setArg .hist_kernel 4 (.int mx)),
    .call (.Kernel .scan_add_kernel .scan_add),
    .call (.setArg .scan_add_kernel 0 (.buffer .buffer_A)),
    .call (.setArg .scan_add_kernel 1 (.buffer .buffer_B)),
    .call (.setArg .scan_add_kernel 2 (.local_bytes scan_mem)),
    .call (.setArg .scan_add_kernel 3 (.local_bytes scan_mem)),
    .call (.enqueueNDRangeKernel .scan_add_kernel [pl.input_elements] [local_size]),
    .call (.enqueueReadBuffer .buffer_B pl.output_size .B),
    .print (.vector .A),
    .print (.vector .B) ] : List Stmt) ++ profiling_report

/-- The function `main` of `tutorial3.cpp` from the `try` on line 29, for the
selected platform and device, an input vector `A` (line 62 fixes ten ones) and
a work-group size `local_size` (line 68 fixes 10). A failed build prints the
diagnostic and rethrows; every `cl::Error` ends in the handler of line 194,
which prints it; `main` then returns 0. The remainder by a zero `local_size`
on line 73 is undefined behaviour. -/
def main (fails : Op → Bool) (platform_id device_id : Int) (A : List Int)
    (local_size : Nat) : Run :=
  let pre := exec fails (select_and_load platform_id device_id)
  match pre.raised with
  | some e => report_error pre.trace e
  | none =>
    if fails .build then
      let h := exec fails build_diagnostic
      match h.raised with
      | some e => report_error (pre.trace ++ [.issued .build] ++ h.trace) e
      | none => report_error (pre.trace ++ [.issued .build] ++ h.trace) .build
    else
      match plan A local_size neutral_element nr_bins with
      | none => ⟨pre.trace ++ [.issued .build], .undefined⟩
      | some pl =>
        match pl.min_value_vec[0]?, pl.max_value_vec[0]? with
        | some mn, some mx =>
          let r := exec fails (device_operations pl local_size mn mx)
          match r.raised with
          | some e => report_error (pre.trace ++ [.issued .build] ++ r.trace) e
          | none => ⟨pre.trace ++ [.issued .build] ++ r.trace, .returned 0⟩
        | _, _ => ⟨pre.trace ++ [.issued .build], .undefined⟩

end Tutorial3

namespace Tutorial1

open Harness

/-- Lines 65-66 of `tutorial1.cpp`: `vector_elements = A.size()` for the ten
floats of line 59. -/
def vector_elements : Nat := 10

/-- Line 66: `vector_size = A.size() * sizeof(float)`. -/
def vector_size : Nat := (vector_elements * 4) % 2 ^ 64

/-- Lines 72-135 of `tutorial1.cpp`: the three buffers, the two uploads, the
five kernels and their bindings, the dispatch of `add2d`, the read-back of
`buffer_C` and the output. -/
def device_operations : List Stmt :=
  ([ .call (.Buffer .buffer_A vector_size),
    .call (.Buffer .buffer_B vector_size),
    .call (.Buffer .buffer_C vector_size),
    .call (.enqueueWriteBuffer .buffer_A vector_size .A),
    .call (.enqueueWriteBuffer .buffer_B vector_size .B),
    .call (.Kernel .kernel_multadd .multadd),
    .call (.setArg .kernel_multadd 0 (.buffer .buffer_A)),
    .call (.setArg .kernel_multadd 1 (.buffer .buffer_B)),
    .call (.setArg .kernel_multadd 2 (.buffer .buffer_C)),
    .call (.Kernel .kernel_add .add),
    .call (.setArg .kernel_add 0 (.buffer .buffer_A)),
    .call (.setArg .kernel_add 1 (.buffer .buffer_B)),
    .call (.setArg .kernel_add 2 (.buffer .buffer_C)),
    .call (.Kernel .kernel_mul .mul),
    .call (.setArg .kernel_mul 0 (.buffer .buffer_C)),
    .call (.setArg .kernel_mul 1 (.buffer .buffer_B)),
    .call (.setArg .kernel_mul 2 (.buffer .buffer_C)),
    .call (.Kernel .kernel_addf .addf),
    .call (.setArg .kernel_addf 0 (.buffer .buffer_A)),
    .call (.setArg .kernel_addf 1 (.buffer .buffer_B)),
    .call (.setArg .kernel_addf 2 (.buffer .buffer_C)),
    .call (.Kernel .kernel_add2d .add2d),
    .call (.setArg .kernel_add2d 0 (.buffer .buffer_A)),
    .call (.setArg .kernel_add2d 1 (.buffer .buffer_B)),
    .call (.setArg .kernel_add2d 2 (.buffer .buffer_C)),
    .call (.enqueueNDRangeKernel .kernel_add2d [vector_elements] []),
    .call (.enqueueReadBuffer .buffer_C vector_size .C),
    .print (.vector .A),
    .print (.vector .B),
    .print (.vector .C) ] : List Stmt) ++ profiling_report

/-- The function `main` of `tutorial1.cpp` from the `try` on line 32. Line 5
includes `<CL/opencl.hpp>` before `Utils.h` with no `CL_HPP_ENABLE_EXCEPTIONS`
defined, so in this program no call of the runtime raises: a failing call
returns a status that the program does not inspect. The handlers
`catch (...)` of lines 49 and 138 are therefore never entered, whatever the
fault environment: the build diagnostic is not printed, every statement is
reached and `main` returns 0. -/
def main (_fails : Op → Bool) (platform_id device_id : Int) : Run :=
  ⟨exec_unchecked (select_and_load platform_id device_id) ++ [.issued .build] ++
      exec_unchecked device_operations, .returned 0⟩

end Tutorial1

namespace Tutorial2

open Harness

/-- The value of `image_input.size()`: width, height, depth and spectrum
multiplied, one byte per `unsigned char` value. -/
def image_bytes (width height depth spectrum : Nat) : Nat :=
  (width * height * depth * spectrum) % 2 ^ 64

/-- The byte size `convolution_mask.size() * sizeof(float)` of the fifteen
floats of lines 42-44. -/
def mask_bytes : Nat := 15 * 4

/-- The byte size `sobel_Gx.size() * sizeof(int)` of the nine ints of lines
47-51. -/
def sobel_bytes : Nat := 9 * 4

/-- Line 58: `int mask_size = 2`. -/
def mask_size : Int := 2

/-- Line 59: `int conv_size = 5`. -/
def conv_size : Int := 5

/-- Lines 38-39 of `tutorial2.cpp`: the input image is loaded and displayed. -/
def open_image : List Stmt :=
  [ .call (.image .load_input), .call (.image .display_input) ]

/-- Lines 92-168 of `tutorial2.cpp`: the five buffers, the three uploads, the
five kernels and their bindings, the dispatch of `convolutionND` over
`(width, height, channels)`, the read-back, the profiling output, the output
image with its display, and the loop that waits until a display is closed
(one call here; it ends when the user closes a window). -/
def device_operations (width height depth spectrum : Nat) : List Stmt :=
  let n := image_bytes width height depth spectrum
  ([ .call (.Buffer .dev_image_input n),
    .call (.Buffer .dev_image_output n),
    .call (.Buffer .dev_convolution_mask mask_bytes),
    .call (.Buffer .dev_sobel_gx sobel_bytes),
    .call (.Buffer .grad_x sobel_bytes),
    .call (.enqueueWriteBuffer .dev_image_input n .image_input),
    .call (.enqueueWriteBuffer .dev_convolution_mask mask_bytes .convolution_mask),
    .call (.enqueueWriteBuffer .dev_sobel_gx sobel_bytes .sobel_Gx),
    .call (.Kernel .blur_kernel .avg_filterND),
    .call (.setArg .blur_kernel 0 (.buffer .dev_image_input)),
    .call (.setArg .blur_kernel 1 (.buffer .dev_image_output)),
    .call (.setArg .blur_kernel 2 (.int mask_size)),
    .call (.Kernel .gray_kernel .rgb2gray),
    .call (.setArg .gray_kernel 0 (.buffer .dev_image_input)),
    .call (.setArg .gray_kernel 1 (.buffer .dev_image_output)),
    .call (.Kernel .conv_kernel .convolutionND),
    .call (.setArg .conv_kernel 0 (.buffer .dev_image_input)),
    .call (.setArg .conv_kernel 1 (.buffer .dev_image_output)),
    .call (.setArg .conv_kernel 2 (.buffer .dev_convolution_mask)),
    .call (.setArg .conv_kernel 3 (.int conv_size)),
    .call (.Kernel .edgingX .convolutionND),
    .call (.setArg .edgingX 0 (.buffer .dev_image_input)),
    .call (.setArg .edgingX 1 (.buffer .dev_image_output)),
    .call (.setArg .edgingX 2 (.buffer .dev_sobel_gx)),
    .call (.Kernel .gamma_correct .gamma_transform),
    .call (.setArg .gamma_correct 0 (.buffer .dev_image_input)),
    .call (.setArg .gamma_correct 1 (.buffer .dev_image_output)),
    .call (.setArg .gamma_correct 2 (.float 3 2)),
    .print (.image_size n),
    .call (.enqueueNDRangeKernel .conv_kernel [width, height, spectrum] []),
    .call (.enqueueReadBuffer .dev_image_output n .output_buffer) ] : List Stmt)
  ++ profiling_report
  ++ [ .call (.image .make_output), .call (.image .display_output),
       .call (.image .wait_closed) ]

/-- The two handlers of lines 171-176: a `cl::Error` and a `CImgException` are
each printed as an `ERROR:` line, after which `main` returns 0. An image call
raises the second kind, every other call the first. -/
def report (trace : List Event) (origin : Op) : Run :=
  match origin with
  | .image _ => ⟨trace ++ [.printed (.image_error origin)], .returned 0⟩
  | _ => report_error trace origin

/-- The function `main` of `tutorial2.cpp` from the `try` on line 37, for the
selected platform and device and an input image of the given dimensions. A
failed build prints the diagnostic and rethrows (line 86). -/
def main (fails : Op → Bool) (platform_id device_id : Int)
    (width height depth spectrum : Nat) : Run :=
  let img := exec fails open_image
  match img.raised with
  | some e => report img.trace e
  | none =>
    let pre := exec fails (select_and_load platform_id device_id)
    match pre.raised with
    | some e => report (img.trace ++ pre.trace) e
    | none =>
      if fails .build then
        let h := exec fails build_diagnostic
        match h.raised with
        | some e => report (img.trace ++ pre.trace ++ [.issued .build] ++ h.trace) e
        | none => report (img.trace ++ pre.trace ++ [.issued .build] ++ h.trace) .build
      else
        let r := exec fails (device_operations width height depth spectrum)
        match r.raised with
        | some e => report (img.trace ++ pre.trace ++ [.issued .build] ++ r.trace) e
        | none => ⟨img.trace ++ pre.trace ++ [.issued .build] ++ r.trace, .returned 0⟩

end Tutorial2

namespace LearningOpenCL

open Harness

/-- Line 46 of `main.cpp`: `int SIZE = 10`. -/
def SIZE : Nat := 10

/-- Line 47: `int A_h[] = { 0, 1, 2, 3, 4, 5, 6, 7, 8, 9, 10 }`. -/
def A_h : List Int := [0, 1, 2, 3, 4, 5, 6, 7, 8, 9, 10]

/-- Line 48: `int B_h[] = { 11, 12, 13, 15, 16, 17, 18, 19, 20 }`. -/
def B_h : List Int := [11, 12, 13, 15, 16, 17, 18, 19, 20]

/-- The value of `sizeof(int)`. -/
def sizeof_int : Nat := 4

/-- The byte count `sizeof(int) * SIZE` of lines 53-61 and 105. -/
def transfer_bytes : Nat := (sizeof_int * SIZE) % 2 ^ 64

/-- The host values a transfer of `bytes` bytes reads from an `int` array:
its first `bytes / sizeof(int)` elements, or `none` when the transfer runs
past the end of the array (an out-of-bounds read). -/
def host_read (arr : List Int) (bytes : Nat) : Option (List Int) :=
  if bytes ≤ sizeof_int * arr.length then some (arr.take (bytes / sizeof_int)) else none

/-- Modelled from the spec: the kernel `simple_add` of `kernels.cl`, which is
not among the sources; the spec calls it an element-wise add kernel, so work
item `i` writes `A[i] + B[i]`. -/
def simple_add (A B : List Int) : List Int := List.zipWith (fun a b => a + b) A B

/-- The sum the kernel is asked to produce at index `i` from the host arrays
as they are declared, `A_h[i] + B_h[i]`; `none` where an array has no such
element. -/
def C_at (i : Nat) : Option Int :=
  match A_h[i]?, B_h[i]? with
  | some a, some b => some (a + b)
  | _, _ => none

/-- Lines 13-74 of `main.cpp` up to the program constructor: device discovery,
the two output lines, context, queue, the three buffers and the two uploads
(which precede the build). -/
def before_build : List Stmt :=
  [ .call .clGetPlatformIDs, .call .clGetPlatformInfo,
    .call .clGetDeviceIDs, .call .clGetDeviceInfo,
    .print .current_device, .print .current_platform,
    .call .Device, .call .Context, .call .CommandQueue,
    .call (.Buffer .A_d transfer_bytes),
    .call (.Buffer .B_d transfer_bytes),
    .call (.Buffer .C_d transfer_bytes),
    .call (.enqueueWriteBuffer .A_d transfer_bytes .A_h),
    .call (.enqueueWriteBuffer .B_d transfer_bytes .B_h),
    .call .Program ]

/-- Lines 85-112 of `main.cpp`: the kernel, its three bindings, the dispatch
over `SIZE` work items, the read-back of `C_d` and the result loop. -/
def after_build_ok : List Stmt :=
  [ .call (.Kernel .simple_add .simple_add),
    .call (.setArg .simple_add 0 (.buffer .A_d)),
    .call (.setArg .simple_add 1 (.buffer .B_d)),
    .call (.setArg .simple_add 2 (.buffer .C_d)),
    .call (.enqueueNDRangeKernel .simple_add [SIZE] []),
    .call (.enqueueReadBuffer .C_d transfer_bytes .C_h),
    .print .result ]

/-- The function `main` of `main.cpp`. The program is compiled without
exceptions: every call returns a status that is ignored, except for the build
on line 77, whose failure prints `Error Building:` with the build log and
leaves through `exit(1)`. The trace records the transfers with their sizes;
whether a transfer stays inside its host array is what `host_read` answers. -/
def main (fails : Op → Bool) : Run :=
  let pre := exec_unchecked before_build
  if fails .build then
    ⟨pre ++ [.issued .build, .issued (.getBuildInfo .log), .printed .error_building],
      .exited 1⟩
  else
    ⟨pre ++ [.issued .build] ++ exec_unchecked after_build_ok, .returned 0⟩

end LearningOpenCL

/-! ### The argument loop of `tutorial1.cpp` and `tutorial3.cpp` -/

namespace Harness

/-- The variables the argument loop works on: `platform_id` and `device_id`
(both start at 0), and how many times the list of platforms and devices was
printed for `-l`. -/
structure ArgState where
  platform_id : Int
  device_id : Int
  listings : Nat
  deriving DecidableEq, Repr

/-- The state before the loop: `int platform_id = 0; int device_id = 0;`. -/
def ArgState.init : ArgState := ⟨0, 0, 0⟩

/-- What one pass through the body of the loop leads to. -/
inductive ArgStep
  /-- The loop goes on at index `i` (the `i++` of the loop header included). -/
  | next (i : Nat) (st : ArgState)
  /-- The branch of `-h`: `print_help(); return 0;`. -/
  | help (st : ArgState)
  /-- An element `argv[j]` with `j ≥ argc` was read. -/
  | out_of_bounds
  deriving DecidableEq, Repr

/-- How the argument loop ends. -/
inductive ArgOutcome
  /-- The loop ran to `i ≥ argc`; `main` goes on with these values. -/
  | finished (st : ArgState)
  /-- The program printed the help text and returned 0. -/
  | help (st : ArgState)
  /-- An element `argv[j]` with `j ≥ argc` was read. -/
  | out_of_bounds
  deriving DecidableEq, Repr

/-- The body of the loop of lines 21-26 of `tutorial3.cpp` (24-29 of
`tutorial1.cpp`) at index `i`, followed by the `i++` of the header. `argv` is
the argument vector, `argc` its length; `strcmp(argv[i], s) == 0` is equality
with `s`; `atoi` is the function of the C library. `i` and `argc` are `int`s,
so `i < (argc - 1)` is compared in the integers. -/
def arg_step (atoi : String → Int) (argv : List String) (i : Nat) (st : ArgState) :
    ArgStep :=
  match argv[i]? with
  | none => .out_of_bounds
  | some a =>
    if a = "-p" ∧ (i : Int) < (argv.length : Int) - 1 then
      match argv[i + 1]? with
      | none => .out_of_bounds
      | some v => .next (i + 1 + 1) { st with platform_id := atoi v }
    else if a = "-d" ∧ (i : Int) < (argv.length : Int) - 1 then
      match argv[i + 1]? with
      | none => .out_of_bounds
      | some v => .next (i + 1 + 1) { st with device_id := atoi v }
    else if a = "-l" then .next (i + 1) { st with listings := st.listings + 1 }
    else if a = "-h" then .help st
    else .next (i + 1) st

/-- The loop `for (int i = 1; i < argc; i++)` from index `i` on, with a bound
on the number of passes; `none` when the bound is used up. -/
def arg_loop (atoi : String → Int) (argv : List String) : Nat → Nat → ArgState →
    Option ArgOutcome
  | fuel, i, st =>
    if i < argv.length then
      match fuel with
      | 0 => none
      | fuel + 1 =>
        match arg_step atoi argv i st with
        | .next j st' => arg_loop atoi argv fuel j st'
        | .help st' => some (.help st')
        | .out_of_bounds => some .out_of_bounds
    else some (.finished st)

/-- The argument handling of `main`: the loop from `i = 1`, with as many
passes allowed as there are arguments. -/
def parse_arguments (atoi : String → Int) (argv : List String) : Option ArgOutcome :=
  arg_loop atoi argv argv.length 1 ArgState.init

/-- A stand-in for `atoi` on the few strings used in examples. -/
def atoi_small (s : String) : Int :=
  if s = "1" then 1 else if s = "2" then 2 else if s = "3" then 3 else 0

end Harness

/-! ### Transfers, buffer capacities and host arrays -/

namespace Harness

/-- The host-to-device uploads of a block, in order: the destination buffer,
the number of bytes and the host array read (`enqueueWriteBuffer`). -/
def uploads : List Stmt → List (BufferId × Nat × HostId)
  | [] => []
  | .call (.enqueueWriteBuffer b bytes host) :: rest => (b, bytes, host) :: uploads rest
  | _ :: rest => uploads rest

/-- The capacity of a device buffer: the byte size its constructor is given in
the block, `none` when the block does not create it. -/
def capacity (b : BufferId) : List Stmt → Option Nat
  | [] => none
  | .call (.Buffer b' bytes) :: rest => if b' = b then some bytes else capacity b rest
  | _ :: rest => capacity b rest

end Harness

namespace Tutorial3

open Harness

/-- The host vectors of `tutorial3.cpp` by name. -/
def host_array (pl : Plan) : HostId → Option (List Int)
  | .A => some pl.A
  | .B => some pl.B
  | .min_value_vec => some pl.min_value_vec
  | .max_value_vec => some pl.max_value_vec
  | _ => none

end Tutorial3

namespace LearningOpenCL

open Harness

/-- The host arrays of `main.cpp` that are uploaded, by name. -/
def host_array : HostId → Option (List Int)
  | .A_h => some A_h
  | .B_h => some B_h
  | _ => none

end LearningOpenCL

/-! ## Part 3: lemmas on the padding step -/

namespace Tutorial3

/-- With a non-zero work-group size the padding step is defined, and its result
is the input followed by the filler. -/
theorem pad_of_pos (A : List Int) (G : Nat) (ne : Int) (hG : 1 ≤ G) :
    pad A G ne =
      some (if A.length % G ≠ 0 then A ++ List.replicate (G - A.length % G) ne else A) := by
  have h0 : G ≠ 0 := by omega
  unfold pad padding_size
  simp only [h0, if_false]
  by_cases hr : A.length % G = 0
  · simp [hr]
  · simp [hr]

/-- The padded vector is always the input followed by copies of the filler. -/
theorem pad_shape (A A' : List Int) (G : Nat) (ne : Int) (h : pad A G ne = some A') :
    A' = A ++ List.replicate (A'.length - A.length) ne := by
  unfold pad padding_size at h
  by_cases h0 : G = 0
  · simp [h0] at h
  · simp only [h0, if_false] at h
    by_cases hr : A.length % G = 0
    · simp [hr] at h
      subst h
      simp
    · simp [hr] at h
      subst h
      simp

/-- The length of the padded vector. -/
theorem pad_length (A A' : List Int) (G : Nat) (ne : Int) (hG : 1 ≤ G)
    (h : pad A G ne = some A') :
    A'.length = if A.length % G ≠ 0 then A.length + (G - A.length % G) else A.length := by
  rw [pad_of_pos A G ne hG] at h
  injection h with h
  subst h
  by_cases hr : A.length % G = 0
  · simp [hr]
  · simp [hr]

/-- Rounding a length up by the distance to the next multiple gives a multiple. -/
theorem round_up_mod (L G : Nat) (hG : 1 ≤ G) : (L + (G - L % G)) % G = 0 := by
  have hlt : L % G < G := Nat.mod_lt L (by omega)
  have hdm : G * (L / G) + L % G = L := Nat.div_add_mod L G
  have e : L + (G - L % G) = G * (L / G + 1) := by
    rw [Nat.mul_add, Nat.mul_one]
    omega
  rw [e]
  exact Nat.mul_mod_right G (L / G + 1)

/-- The padded length is a multiple of the work-group size. -/
theorem pad_length_mod (A A' : List Int) (G : Nat) (ne : Int) (hG : 1 ≤ G)
    (h : pad A G ne = some A') : A'.length % G = 0 := by
  rw [pad_length A A' G ne hG h]
  by_cases hr : A.length % G = 0
  · simp [hr]
  · simp only [ne_eq, hr, not_false_eq_true, if_true]
    exact round_up_mod A.length G hG

/-- Folding `min` over copies of one value takes the minimum with it once. -/
theorem foldl_min_replicate (a v : Int) (k : Nat) :
    (List.replicate (k + 1) v).foldl min a = min a v := by
  induction k generalizing a with
  | zero => simp
  | succ n ih =>
    rw [List.replicate_succ, List.foldl_cons, ih]
    simp [min_assoc]

/-- Folding `max` over copies of one value takes the maximum with it once. -/
theorem foldl_max_replicate (a v : Int) (k : Nat) :
    (List.replicate (k + 1) v).foldl max a = max a v := by
  induction k generalizing a with
  | zero => simp
  | succ n ih =>
    rw [List.replicate_succ, List.foldl_cons, ih]
    simp [max_assoc]

/-- The minimum of a non-empty vector followed by at least one filler. -/
theorem minimum_append_replicate (x : Int) (xs : List Int) (v : Int) (k : Nat) :
    minimum ((x :: xs) ++ List.replicate (k + 1) v) = some (min (xs.foldl min x) v) := by
  simp only [minimum, List.cons_append, List.foldl_append, foldl_min_replicate]

/-- The maximum of a non-empty vector followed by at least one filler. -/
theorem maximum_append_replicate (x : Int) (xs : List Int) (v : Int) (k : Nat) :
    maximum ((x :: xs) ++ List.replicate (k + 1) v) = some (max (xs.foldl max x) v) := by
  simp only [maximum, List.cons_append, List.foldl_append, foldl_max_replicate]

end Tutorial3

/-! ## Part 4: lemmas on blocks of straight-line code -/

namespace Harness

/-- Every event of a block's trace is the event of one of its statements. -/
theorem exec_trace_subset (fails : Op → Bool) (ss : List Stmt) :
    ∀ e ∈ (exec fails ss).trace, e ∈ ss.map Stmt.event := by
  induction ss with
  | nil => intro e he; simp [exec] at he
  | cons s rest ih =>
    intro e he
    cases s with
    | print m =>
      simp only [exec, List.mem_cons] at he
      rcases he with he | he
      · simp [he, Stmt.event]
      · simp [ih e he]
    | call op =>
      by_cases hf : fails op = true
      · simp only [exec, hf, if_true, List.mem_singleton] at he
        simp [he, Stmt.event]
      · have hf' : fails op = false := by simpa using hf
        simp only [exec, hf', Bool.false_eq_true, if_false, List.mem_cons] at he
        rcases he with he | he
        · simp [he, Stmt.event]
        · simp [ih e he]

/-- A block none of whose calls fails runs to its end. -/
theorem exec_of_no_failure (fails : Op → Bool) (ss : List Stmt)
    (h : ∀ op, Stmt.call op ∈ ss → fails op = false) :
    exec fails ss = ⟨ss.map Stmt.event, none⟩ := by
  induction ss with
  | nil => simp [exec]
  | cons s rest ih =>
    have ih' := ih (fun op hop => h op (List.mem_cons_of_mem _ hop))
    cases s with
    | print m => simp [exec, ih', Stmt.event]
    | call op =>
      have hf : fails op = false := h op (List.mem_cons_self _ _)
      simp [exec, hf, ih', Stmt.event]

/-- In the environment without faults every block runs to its end. -/
theorem exec_no_faults (ss : List Stmt) :
    exec no_faults ss = ⟨ss.map Stmt.event, none⟩ :=
  exec_of_no_failure no_faults ss (fun _ _ => rfl)

/-- The call a block raises at is one of its calls, and it fails. -/
theorem exec_raised (fails : Op → Bool) (ss : List Stmt) (op : Op)
    (h : (exec fails ss).raised = some op) : fails op = true ∧ Stmt.call op ∈ ss := by
  induction ss with
  | nil => simp [exec] at h
  | cons s rest ih =>
    cases s with
    | print m =>
      simp only [exec] at h
      exact ⟨(ih h).1, List.mem_cons_of_mem _ (ih h).2⟩
    | call o =>
      by_cases hf : fails o = true
      · simp only [exec, hf, if_true, Option.some.injEq] at h
        subst h
        exact ⟨hf, List.mem_cons_self _ _⟩
      · simp only [exec, hf] at h
        exact ⟨(ih h).1, List.mem_cons_of_mem _ (ih h).2⟩

/-- A block that does not raise leaves the events of all its statements. -/
theorem exec_complete (fails : Op → Bool) (ss : List Stmt)
    (h : (exec fails ss).raised = none) : (exec fails ss).trace = ss.map Stmt.event := by
  induction ss with
  | nil => simp [exec]
  | cons s rest ih =>
    cases s with
    | print m =>
      simp only [exec] at h
      simp [exec, ih h, Stmt.event]
    | call o =>
      by_cases hf : fails o = true
      · simp [exec, hf] at h
      · simp only [exec, hf] at h
        simp [exec, hf, ih h, Stmt.event]

end Harness

/-! ## Part 5: lemmas on the runs of `tutorial3.cpp` -/

namespace Tutorial3

open Harness

/-- No statement before the build is a dispatch. -/
theorem select_and_load_no_dispatch (p d : Int) :
    ∀ e ∈ (select_and_load p d).map Stmt.event, e.is_dispatch = false := by
  simp [select_and_load, Stmt.event, Event.is_dispatch]

/-- No statement of the build handler is a dispatch. -/
theorem build_diagnostic_no_dispatch :
    ∀ e ∈ build_diagnostic.map Stmt.event, e.is_dispatch = false := by
  simp [build_diagnostic, Stmt.event, Event.is_dispatch]

/-- The only dispatch among the device operations is that of `scan_add`, over
the padded length with the work-group size as local extent. -/
theorem dispatch_of_device_operations (pl : Plan) (G : Nat) (mn mx : Int) :
    ∀ e ∈ (device_operations pl G mn mx).map Stmt.event, e.is_dispatch = true →
      e = .issued (.enqueueNDRangeKernel .scan_add_kernel [pl.input_elements] [G]) := by
  simp [device_operations, profiling_report, Stmt.event, Event.is_dispatch]

end Tutorial3

namespace Tutorial3

open Harness

/-- Where an event of a run of `tutorial3.cpp` comes from: the statements
before the build, the build itself, the build handler, the device operations
of a defined plan, or the final error line. -/
theorem main_trace_cases (fails : Op → Bool) (p d : Int) (A : List Int) (G : Nat)
    (e : Event) (he : e ∈ (main fails p d A G).trace) :
    e ∈ (select_and_load p d).map Stmt.event ∨ e = .issued .build ∨
      e ∈ build_diagnostic.map Stmt.event ∨ (∃ o, e = .printed (.error o)) ∨
      ∃ pl mn mx, plan A G neutral_element nr_bins = some pl ∧
        e ∈ (device_operations pl G mn mx).map Stmt.event := by
  have hpre := exec_trace_subset fails (select_and_load p d) e
  have hdiag := exec_trace_subset fails build_diagnostic e
  unfold main at he
  simp only at he
  split at he
  · simp only [report_error, List.mem_append, List.mem_singleton] at he
    rcases he with he | he
    · exact Or.inl (hpre he)
    · exact Or.inr (Or.inr (Or.inr (Or.inl ⟨_, he⟩)))
  · split at he
    · split at he
      · simp only [report_error, List.mem_append, List.mem_singleton] at he
        rcases he with ((he | he) | he) | he
        · exact Or.inl (hpre he)
        · exact Or.inr (Or.inl he)
        · exact Or.inr (Or.inr (Or.inl (hdiag he)))
        · exact Or.inr (Or.inr (Or.inr (Or.inl ⟨_, he⟩)))
      · simp only [report_error, List.mem_append, List.mem_singleton] at he
        rcases he with ((he | he) | he) | he
        · exact Or.inl (hpre he)
        · exact Or.inr (Or.inl he)
        · exact Or.inr (Or.inr (Or.inl (hdiag he)))
        · exact Or.inr (Or.inr (Or.inr (Or.inl ⟨_, he⟩)))
    · split at he
      · simp only [List.mem_append, List.mem_singleton] at he
        rcases he with he | he
        · exact Or.inl (hpre he)
        · exact Or.inr (Or.inl he)
      · rename_i pl hpl
        split at he
        · rename_i mn mx _ _
          have hdev := exec_trace_subset fails (device_operations pl G mn mx) e
          split at he
          · simp only [report_error, List.mem_append, List.mem_singleton] at he
            rcases he with ((he | he) | he) | he
            · exact Or.inl (hpre he)
            · exact Or.inr (Or.inl he)
            · exact Or.inr (Or.inr (Or.inr (Or.inr ⟨pl, mn, mx, hpl, hdev he⟩)))
            · exact Or.inr (Or.inr (Or.inr (Or.inl ⟨_, he⟩)))
          · simp only [List.mem_append, List.mem_singleton] at he
            rcases he with (he | he) | he
            · exact Or.inl (hpre he)
            · exact Or.inr (Or.inl he)
            · exact Or.inr (Or.inr (Or.inr (Or.inr ⟨pl, mn, mx, hpl, hdev he⟩)))
        · simp only [List.mem_append, List.mem_singleton] at he
          rcases he with he | he
          · exact Or.inl (hpre he)
          · exact Or.inr (Or.inl he)

/-- Every dispatch of a run of `tutorial3.cpp` is the dispatch of `scan_add`
over the padded length, with the work-group size as local extent. -/
theorem main_dispatch (fails : Op → Bool) (p d : Int) (A : List Int) (G : Nat)
    (e : Event) (he : e ∈ (main fails p d A G).trace) (hd : e.is_dispatch = true) :
    ∃ pl, plan A G neutral_element nr_bins = some pl ∧
      e = .issued (.enqueueNDRangeKernel .scan_add_kernel [pl.input_elements] [G]) := by
  rcases main_trace_cases fails p d A G e he with h | h | h | ⟨o, h⟩ | ⟨pl, mn, mx, hpl, h⟩
  · rw [select_and_load_no_dispatch p d e h] at hd; cases hd
  · subst h; simp [Event.is_dispatch] at hd
  · rw [build_diagnostic_no_dispatch e h] at hd; cases hd
  · subst h; simp [Event.is_dispatch] at hd
  · exact ⟨pl, hpl, dispatch_of_device_operations pl G mn mx e h hd⟩

/-- The plan is defined exactly when the padding step is, and records it. -/
theorem plan_of_pad (A A' : List Int) (G : Nat) (ne nb : Int) (h : pad A G ne = some A') :
    ∃ pl, plan A G ne nb = some pl ∧ pl.A = A' ∧ pl.input_elements = A'.length ∧
      pl.nr_groups = A'.length / G ∧ pl.input_size = (A'.length * 4) % 2 ^ 64 ∧
      pl.min_value_vec = [INT_MAX] ∧ pl.max_value_vec = [INT_MIN] := by
  refine ⟨_, by simp only [plan, h]; rfl, rfl, rfl, rfl, rfl, rfl, rfl⟩

/-- When no call fails the run of `tutorial3.cpp` issues every statement. -/
theorem main_no_faults (p d : Int) (A : List Int) (G : Nat) (pl : Plan)
    (h : plan A G neutral_element nr_bins = some pl) :
    (main no_faults p d A G).trace =
      (select_and_load p d).map Stmt.event ++ [.issued .build] ++
        (device_operations pl G INT_MAX INT_MIN).map Stmt.event ∧
    (main no_faults p d A G).outcome = .returned 0 := by
  have hv : pl.min_value_vec = [INT_MAX] ∧ pl.max_value_vec = [INT_MIN] := by
    unfold plan at h
    split at h
    · cases h
    · injection h with h
      subst h
      exact ⟨rfl, rfl⟩
  unfold main
  simp only [exec_no_faults, h, hv.1, hv.2]
  simp [no_faults]

end Tutorial3

/-! ## Part 6: the claims on the padding step of `tutorial3.cpp` -/

namespace Tutorial3

open Harness

/-- The entries of a padded vector: the original ones first, the filler after. -/
theorem pad_entries (A A' : List Int) (G : Nat) (ne : Int) (h : pad A G ne = some A') :
    (∀ i, i < A.length → A'[i]? = A[i]?) ∧
      (∀ i v, A.length ≤ i → A'[i]? = some v → v = ne) := by
  have hs := pad_shape A A' G ne h
  constructor
  · intro i hi
    rw [hs, List.getElem?_append_left hi]
  · intro i v hi hv
    rw [hs, List.getElem?_append_right hi, List.getElem?_replicate] at hv
    split at hv
    · injection hv with hv
      exact hv.symm
    · cases hv

/-- C1: for every input vector, of any length L, and every work-group size
G ≥ 1, the padding step of tutorial3 yields a vector of length P with L ≤ P,
P mod G = 0 and P - L < G; nr_groups = P / G satisfies nr_groups * G = P; and
the dispatch at the end of the program, the only one any run issues, has global
extent P and local extent G, which divides P. -/
theorem C1_padding_geometry (A : List Int) (G : Nat) (hG : 1 ≤ G) :
    ∃ pl : Plan, plan A G neutral_element nr_bins = some pl ∧
      pad A G neutral_element = some pl.A ∧
      pl.input_elements = pl.A.length ∧
      A.length ≤ pl.input_elements ∧
      pl.input_elements % G = 0 ∧
      pl.input_elements - A.length < G ∧
      pl.nr_groups = pl.input_elements / G ∧
      pl.nr_groups * G = pl.input_elements ∧
      G ∣ pl.input_elements ∧
      (∀ fails p d e, e ∈ (main fails p d A G).trace → e.is_dispatch = true →
        e = .issued (.enqueueNDRangeKernel .scan_add_kernel [pl.input_elements] [G])) ∧
      (∀ p d, Event.issued (.enqueueNDRangeKernel .scan_add_kernel [pl.input_elements] [G])
        ∈ (main no_faults p d A G).trace) := by
  have hp := pad_of_pos A G neutral_element hG
  obtain ⟨pl, hpl, hA, hn, hg, -⟩ := plan_of_pad A _ G neutral_element nr_bins hp
  have hlen := pad_length A _ G neutral_element hG hp
  have hmod := pad_length_mod A _ G neutral_element hG hp
  have hlt : A.length % G < G := Nat.mod_lt _ (by omega)
  rw [← hA] at hp hlen hmod
  rw [← hA] at hn hg
  have hdvd : G ∣ pl.A.length := Nat.dvd_of_mod_eq_zero hmod
  refine ⟨pl, hpl, hp, hn, ?_, ?_, ?_, ?_, ?_, ?_, ?_, ?_⟩
  · rw [hn, hlen]; split <;> omega
  · rw [hn]; exact hmod
  · rw [hn, hlen]; split <;> omega
  · rw [hg, hn]
  · rw [hg, hn]; exact Nat.div_mul_cancel hdvd
  · rw [hn]; exact hdvd
  · intro fails p d e he hd
    obtain ⟨pl', hpl', he'⟩ := main_dispatch fails p d A G e he hd
    rw [hpl] at hpl'
    injection hpl' with hpl'
    subst hpl'
    exact he'
  · intro p d
    rw [(main_no_faults p d A G pl hpl).1]
    simp [device_operations, Stmt.event]

/-- C1 at ten elements and a work-group size of 16. -/
theorem C1_padding_geometry_witness :
    1 ≤ 16 ∧ ∃ pl : Plan, plan A_init 16 neutral_element nr_bins = some pl ∧
      pad A_init 16 neutral_element = some pl.A ∧
      pl.input_elements = pl.A.length ∧
      A_init.length ≤ pl.input_elements ∧
      pl.input_elements % 16 = 0 ∧
      pl.input_elements - A_init.length < 16 ∧
      pl.nr_groups = pl.input_elements / 16 ∧
      pl.nr_groups * 16 = pl.input_elements ∧
      16 ∣ pl.input_elements ∧
      (∀ fails p d e, e ∈ (main fails p d A_init 16).trace → e.is_dispatch = true →
        e = .issued (.enqueueNDRangeKernel .scan_add_kernel [pl.input_elements] [16])) ∧
      (∀ p d, Event.issued (.enqueueNDRangeKernel .scan_add_kernel [pl.input_elements] [16])
        ∈ (main no_faults p d A_init 16).trace) :=
  ⟨by decide, C1_padding_geometry A_init 16 (by decide)⟩

/-- C2 fails on the code: the padding value of tutorial3 is -2, not the
additive identity. Ten ones need no padding for a work-group size of 10 and sum
to 10, but padded for a work-group size of 16 they get six slots of -2 and the
sum becomes -2. -/
theorem C2_padding_changes_the_sum :
    neutral_element = -2 ∧
      pad (List.replicate 10 1) 10 neutral_element = some (List.replicate 10 1) ∧
      total (List.replicate 10 1) = 10 ∧
      pad (List.replicate 10 1) 16 neutral_element =
        some (List.replicate 10 1 ++ List.replicate 6 (-2)) ∧
      total (List.replicate 10 1 ++ List.replicate 6 (-2)) = -2 := by
  refine ⟨rfl, ?_, ?_, ?_, ?_⟩ <;> decide

/-- C3 fails on the code: the input handed to reduce_min and reduce_max is the
one padded vector, whose filler is -2 and neither INT_MAX nor INT_MIN. Ten
ones padded for a work-group size of 16 have minimum -2 instead of 1, and the
vector [-5] padded for a work-group size of 2 has maximum -2 instead of -5. -/
theorem C3_padding_wins_the_comparison :
    neutral_element ≠ INT_MAX ∧ neutral_element ≠ INT_MIN ∧
      pad A_init 16 neutral_element = some (A_init ++ List.replicate 6 (-2)) ∧
      minimum A_init = some 1 ∧
      minimum (A_init ++ List.replicate 6 (-2)) = some (-2) ∧
      pad [-5] 2 neutral_element = some [-5, -2] ∧
      maximum [-5] = some (-5) ∧
      maximum [-5, -2] = some (-2) := by
  refine ⟨?_, ?_, ?_, ?_, ?_, ?_, ?_, ?_⟩ <;> decide

/-- C3 as amended: for every non-empty vector and every work-group size G ≥ 1,
the vector uploaded to buffer_A, to which both reduce_min and reduce_max are
bound, is padded with neutral_element = -2; INT_MAX and INT_MIN are the initial
values of the accumulators min_value_vec and max_value_vec. The minimum of the
padded vector is the original minimum when nothing is appended and the smaller
of it and -2 otherwise; the maximum is the original maximum when nothing is
appended and the larger of it and -2 otherwise. -/
theorem C3_padding_value_and_extrema (A : List Int) (G : Nat) (hA : A ≠ [])
    (hG : 1 ≤ G) :
    ∃ (pl : Plan) (m M : Int), plan A G neutral_element nr_bins = some pl ∧
      pad A G neutral_element = some pl.A ∧
      (∀ i v, A.length ≤ i → pl.A[i]? = some v → v = -2) ∧
      pl.min_value_vec = [INT_MAX] ∧ pl.max_value_vec = [INT_MIN] ∧
      minimum A = some m ∧ maximum A = some M ∧
      minimum pl.A = some (if A.length % G = 0 then m else min m (-2)) ∧
      maximum pl.A = some (if A.length % G = 0 then M else max M (-2)) ∧
      (∀ mn mx,
        Stmt.call (.enqueueWriteBuffer .buffer_A pl.input_size .A)
          ∈ device_operations pl G mn mx ∧
        Stmt.call (.setArg .reduce_min_kernel 0 (.buffer .buffer_A))
          ∈ device_operations pl G mn mx ∧
        Stmt.call (.setArg .reduce_max_kernel 0 (.buffer .buffer_A))
          ∈ device_operations pl G mn mx) := by
  have hp := pad_of_pos A G neutral_element hG
  obtain ⟨pl, hpl, hPA, -, -, -, hmin, hmax⟩ := plan_of_pad A _ G neutral_element nr_bins hp
  rw [← hPA] at hp
  have hent := (pad_entries A pl.A G neutral_element hp).2
  have hlt : A.length % G < G := Nat.mod_lt _ (by omega)
  cases A with
  | nil => exact absurd rfl hA
  | cons x xs =>
    refine ⟨pl, xs.foldl min x, xs.foldl max x, hpl, hp, ?_, hmin, hmax, rfl, rfl, ?_, ?_, ?_⟩
    · intro i v hi hv
      exact hent i v hi hv
    · rw [hPA]
      by_cases hr : (x :: xs).length % G = 0
      · simp only [hr, ne_eq, not_true_eq_false, if_false, if_true]
        rfl
      · obtain ⟨k, hk⟩ : ∃ k, G - (x :: xs).length % G = k + 1 :=
          ⟨G - (x :: xs).length % G - 1, by omega⟩
        simp only [hr, ne_eq, not_false_eq_true, if_true, if_false, hk]
        exact minimum_append_replicate x xs neutral_element k
    · rw [hPA]
      by_cases hr : (x :: xs).length % G = 0
      · simp only [hr, ne_eq, not_true_eq_false, if_false, if_true]
        rfl
      · obtain ⟨k, hk⟩ : ∃ k, G - (x :: xs).length % G = k + 1 :=
          ⟨G - (x :: xs).length % G - 1, by omega⟩
        simp only [hr, ne_eq, not_false_eq_true, if_true, if_false, hk]
        exact maximum_append_replicate x xs neutral_element k
    · intro mn mx
      simp [device_operations]

/-- C3 as amended, at ten ones and a work-group size of 16. -/
theorem C3_padding_value_and_extrema_witness :
    A_init ≠ [] ∧ 1 ≤ 16 ∧
    ∃ (pl : Plan) (m M : Int), plan A_init 16 neutral_element nr_bins = some pl ∧
      pad A_init 16 neutral_element = some pl.A ∧
      (∀ i v, A_init.length ≤ i → pl.A[i]? = some v → v = -2) ∧
      pl.min_value_vec = [INT_MAX] ∧ pl.max_value_vec = [INT_MIN] ∧
      minimum A_init = some m ∧ maximum A_init = some M ∧
      minimum pl.A = some (if A_init.length % 16 = 0 then m else min m (-2)) ∧
      maximum pl.A = some (if A_init.length % 16 = 0 then M else max M (-2)) ∧
      (∀ mn mx,
        Stmt.call (.enqueueWriteBuffer .buffer_A pl.input_size .A)
          ∈ device_operations pl 16 mn mx ∧
        Stmt.call (.setArg .reduce_min_kernel 0 (.buffer .buffer_A))
          ∈ device_operations pl 16 mn mx ∧
        Stmt.call (.setArg .reduce_max_kernel 0 (.buffer .buffer_A))
          ∈ device_operations pl 16 mn mx) :=
  ⟨by decide, by decide, C3_padding_value_and_extrema A_init 16 (by decide) (by decide)⟩

/-- C4: with min_value = -1, max_value = 10, nr_bins = 10 and
neutral_element = -2, for every input vector whose elements all lie in
[min_value, max_value] and every work-group size G ≥ 1, every slot appended by
the padding holds a value outside [min_value, max_value], and the number of
elements of the padded vector inside the range equals the unpadded length. -/
theorem C4_padding_outside_histogram_range (A : List Int) (G : Nat) (hG : 1 ≤ G)
    (hA : ∀ x ∈ A, min_value ≤ x ∧ x ≤ max_value) :
    min_value = -1 ∧ max_value = 10 ∧ nr_bins = 10 ∧ neutral_element = -2 ∧
      ∃ A', pad A G neutral_element = some A' ∧
        (∀ i v, A.length ≤ i → A'[i]? = some v → in_range min_value max_value v = false) ∧
        counted min_value max_value A' = A.length := by
  have hp := pad_of_pos A G neutral_element hG
  have hs := pad_shape A _ G neutral_element hp
  have hent := (pad_entries A _ G neutral_element hp).2
  refine ⟨rfl, rfl, rfl, rfl, _, hp, ?_, ?_⟩
  · intro i v hi hv
    rw [hent i v hi hv]
    decide
  · rw [hs]
    unfold counted
    rw [List.countP_append]
    have h1 : List.countP (in_range min_value max_value) A = A.length := by
      rw [List.countP_eq_length]
      intro x hx
      have := hA x hx
      simp [in_range, this.1, this.2]
    have h2 : ∀ k, List.countP (in_range min_value max_value)
        (List.replicate k neutral_element) = 0 := by
      intro k
      rw [List.countP_eq_zero]
      intro x hx
      rw [List.eq_of_mem_replicate hx]
      decide
    rw [h1, h2]
    rfl

/-- C4 at the vector [-1, 0, 10] and a work-group size of 4. -/
theorem C4_padding_outside_histogram_range_witness :
    1 ≤ 4 ∧ (∀ x ∈ ([-1, 0, 10] : List Int), min_value ≤ x ∧ x ≤ max_value) ∧
    (min_value = -1 ∧ max_value = 10 ∧ nr_bins = 10 ∧ neutral_element = -2 ∧
      ∃ A', pad [-1, 0, 10] 4 neutral_element = some A' ∧
        (∀ i v, ([-1, 0, 10] : List Int).length ≤ i → A'[i]? = some v →
          in_range min_value max_value v = false) ∧
        counted min_value max_value A' = ([-1, 0, 10] : List Int).length) :=
  ⟨by decide, by decide,
    C4_padding_outside_histogram_range [-1, 0, 10] 4 (by decide) (by decide)⟩

/-- C5: for every vector A of length L, every work-group size G ≥ 1 and every
padding value, after the padding step the first L entries are the entries of A
in the same order, every entry at an index ≥ L equals the padding value, and
when L is a multiple of G the vector is unchanged. -/
theorem C5_padding_frame (A : List Int) (G : Nat) (ne : Int) (hG : 1 ≤ G) :
    ∃ A', pad A G ne = some A' ∧
      (∀ i, i < A.length → A'[i]? = A[i]?) ∧
      A'.take A.length = A ∧
      (∀ i v, A.length ≤ i → A'[i]? = some v → v = ne) ∧
      (A.length % G = 0 → A' = A) := by
  have hp := pad_of_pos A G ne hG
  have hs := pad_shape A _ G ne hp
  have hent := pad_entries A _ G ne hp
  refine ⟨_, hp, hent.1, ?_, hent.2, ?_⟩
  · rw [hs]
    simp
  · intro hr
    simp [hr]

/-- C5 at ten ones, a work-group size of 16 and the padding value of the
program. -/
theorem C5_padding_frame_witness :
    1 ≤ 16 ∧ ∃ A', pad A_init 16 neutral_element = some A' ∧
      (∀ i, i < A_init.length → A'[i]? = A_init[i]?) ∧
      A'.take A_init.length = A_init ∧
      (∀ i v, A_init.length ≤ i → A'[i]? = some v → v = neutral_element) ∧
      (A_init.length % 16 = 0 → A' = A_init) :=
  ⟨by decide, C5_padding_frame A_init 16 neutral_element (by decide)⟩

end Tutorial3

/-! ## Part 7: the host data of `LearningOpenCL/main.cpp` -/

namespace LearningOpenCL

open Harness

/-- C6 fails on the code: the upload for A reads [0, ..., 9], but the array B_h
is [11, 12, 13, 15, ..., 20], nine values without 14, so the upload of ten
values for B runs past its end, B differs from [11, ..., 20] from index 3 on,
the sum asked for at index 3 is 3 + 15 = 18 and not 11 + 2 * 3 = 17, and there
is no tenth element of B to add at index 9. -/
theorem C6_host_arrays_give_other_sums :
    transfer_bytes = 40 ∧
      host_read A_h transfer_bytes = some [0, 1, 2, 3, 4, 5, 6, 7, 8, 9] ∧
      B_h.length = 9 ∧
      host_read B_h transfer_bytes = none ∧
      B_h[3]? = some 15 ∧
      C_at 3 = some 18 ∧ (18 : Int) ≠ 11 + 2 * 3 ∧
      C_at 9 = none ∧
      simple_add (A_h.take SIZE) (B_h.take SIZE) = [11, 13, 15, 18, 20, 22, 24, 26, 28] ∧
      (List.range 10).map (fun i => C_at i) ≠
        (List.range 10).map (fun i => some (11 + 2 * (i : Int))) := by
  refine ⟨?_, ?_, ?_, ?_, ?_, ?_, ?_, ?_, ?_, ?_⟩ <;> decide

end LearningOpenCL

/-! ## Part 8: the runs of the four programs when the build fails -/

namespace Harness

/-- What follows the build in a trace whose earlier events are not the build. -/
theorem after_build_append (xs rest : List Event) (h : Event.issued .build ∉ xs) :
    after_build (xs ++ Event.issued .build :: rest) = rest := by
  induction xs with
  | nil => simp [after_build]
  | cons x xs ih =>
    have hx : x ≠ Event.issued .build := fun hx => h (by simp [hx])
    have hxs : Event.issued .build ∉ xs := fun hxs => h (List.mem_cons_of_mem _ hxs)
    simp [after_build, hx, ih hxs]

/-- The statements before the build do not contain the build. -/
theorem build_not_in_select_and_load (p d : Int) :
    Event.issued .build ∉ (select_and_load p d).map Stmt.event := by
  simp [select_and_load, Stmt.event]

/-- The diagnostic and the error line hold no upload, no kernel creation or
binding and no dispatch, and they hold the three diagnostic lines. -/
theorem diagnostic_events (o : Op) :
    (∀ e ∈ build_diagnostic.map Stmt.event ++ [Event.printed (.error o)],
      e.is_upload = false ∧ e.is_kernel_setup = false ∧ e.is_dispatch = false ∧
        e.is_download = false) ∧
    Event.printed .build_status ∈ build_diagnostic.map Stmt.event ∧
    Event.printed .build_options ∈ build_diagnostic.map Stmt.event ∧
    Event.printed .build_log ∈ build_diagnostic.map Stmt.event := by
  simp [build_diagnostic, Stmt.event, Event.is_upload, Event.is_kernel_setup,
    Event.is_dispatch, Event.is_download]

end Harness

namespace Tutorial3

open Harness

/-- The run of `tutorial3.cpp` when the build is reached and fails and the
queries of the handler succeed. -/
theorem main_build_failure (fails : Op → Bool) (p d : Int) (A : List Int) (G : Nat)
    (hb : fails .build = true)
    (hpre : ∀ op, Stmt.call op ∈ select_and_load p d → fails op = false)
    (hq : ∀ op, Stmt.call op ∈ build_diagnostic → fails op = false) :
    main fails p d A G =
      ⟨(select_and_load p d).map Stmt.event ++ Event.issued .build ::
        (build_diagnostic.map Stmt.event ++ [.printed (.error .build)]), .returned 0⟩ := by
  unfold main
  simp only [exec_of_no_failure fails _ hpre, exec_of_no_failure fails _ hq, hb, if_true,
    report_error]
  simp

end Tutorial3

namespace Tutorial2

open Harness

/-- The statements that open the image do not contain the build. -/
theorem build_not_in_open_image :
    Event.issued .build ∉ open_image.map Stmt.event := by
  simp [open_image, Stmt.event]

/-- The run of `tutorial2.cpp` when the build is reached and fails and the
queries of the handler succeed. -/
theorem main2_build_failure (fails : Op → Bool) (p d : Int) (w h dp s : Nat)
    (hb : fails .build = true)
    (himg : ∀ op, Stmt.call op ∈ open_image → fails op = false)
    (hpre : ∀ op, Stmt.call op ∈ select_and_load p d → fails op = false)
    (hq : ∀ op, Stmt.call op ∈ build_diagnostic → fails op = false) :
    main fails p d w h dp s =
      ⟨(open_image.map Stmt.event ++ (select_and_load p d).map Stmt.event) ++
        Event.issued .build ::
          (build_diagnostic.map Stmt.event ++ [.printed (.error .build)]), .returned 0⟩ := by
  unfold main
  simp only [exec_of_no_failure fails _ himg, exec_of_no_failure fails _ hpre,
    exec_of_no_failure fails _ hq, hb, if_true, report, report_error]
  simp

end Tutorial2

namespace LearningOpenCL

open Harness

/-- The run of `main.cpp` when the build fails. -/
theorem main0_build_failure (fails : Op → Bool) (hb : fails .build = true) :
    main fails =
      ⟨before_build.map Stmt.event ++ Event.issued .build ::
        [.issued (.getBuildInfo .log), .printed .error_building], .exited 1⟩ := by
  unfold main
  simp [hb, exec_unchecked]

/-- The statements of `main.cpp` before the build do not contain the build. -/
theorem build_not_in_before_build :
    Event.issued .build ∉ before_build.map Stmt.event := by
  simp [before_build, Stmt.event]

end LearningOpenCL

namespace Harness

/-- C7 fails on the code. In main.cpp a failed build reports the build log
only, neither the status nor the options. In tutorial1, which is built without
exceptions, a failed build returns a status that is not inspected: none of the
build status, options and log is reported, and after the failed build the
uploads, the kernel creation and the dispatch are issued. -/
theorem C7_build_failure_not_uniform :
    (LearningOpenCL.main (only .build)).outcome = .exited 1 ∧
      after_build (LearningOpenCL.main (only .build)).trace =
        [.issued (.getBuildInfo .log), .printed .error_building] ∧
      Event.printed .build_status ∉ (LearningOpenCL.main (only .build)).trace ∧
      Event.printed .build_options ∉ (LearningOpenCL.main (only .build)).trace ∧
      Event.printed .build_status ∉ (Tutorial1.main (only .build) 0 0).trace ∧
      Event.printed .build_options ∉ (Tutorial1.main (only .build) 0 0).trace ∧
      Event.printed .build_log ∉ (Tutorial1.main (only .build) 0 0).trace ∧
      Event.issued (.enqueueWriteBuffer .buffer_A 40 .A)
        ∈ after_build (Tutorial1.main (only .build) 0 0).trace ∧
      Event.issued (.Kernel .kernel_multadd .multadd)
        ∈ after_build (Tutorial1.main (only .build) 0 0).trace ∧
      Event.issued (.enqueueNDRangeKernel .kernel_add2d [10] [])
        ∈ after_build (Tutorial1.main (only .build) 0 0).trace ∧
      (Tutorial1.main (only .build) 0 0).outcome = .returned 0 := by
  refine ⟨?_, ?_, ?_, ?_, ?_, ?_, ?_, ?_, ?_, ?_, ?_⟩ <;> decide

/-- C7 as amended: when the build is reached and fails and the queries of the
handler succeed, tutorial2 and tutorial3 report the build status, options and
log and the error, and issue no upload, kernel creation or binding, or dispatch
after the failed build; main.cpp reports the build log and leaves through
exit(1), issuing after the failed build nothing but the query of the log. -/
theorem C7_build_failure_reported (fails : Op → Bool) (p d : Int) (A : List Int)
    (G w h dp s : Nat) (hb : fails .build = true)
    (himg : ∀ op, Stmt.call op ∈ Tutorial2.open_image → fails op = false)
    (hpre : ∀ op, Stmt.call op ∈ select_and_load p d → fails op = false)
    (hq : ∀ op, Stmt.call op ∈ build_diagnostic → fails op = false) :
    ((∀ e ∈ after_build (Tutorial3.main fails p d A G).trace,
        e.is_upload = false ∧ e.is_kernel_setup = false ∧ e.is_dispatch = false) ∧
      Event.printed .build_status ∈ after_build (Tutorial3.main fails p d A G).trace ∧
      Event.printed .build_options ∈ after_build (Tutorial3.main fails p d A G).trace ∧
      Event.printed .build_log ∈ after_build (Tutorial3.main fails p d A G).trace ∧
      Event.printed (.error .build) ∈ after_build (Tutorial3.main fails p d A G).trace) ∧
    ((∀ e ∈ after_build (Tutorial2.main fails p d w h dp s).trace,
        e.is_upload = false ∧ e.is_kernel_setup = false ∧ e.is_dispatch = false) ∧
      Event.printed .build_status ∈ after_build (Tutorial2.main fails p d w h dp s).trace ∧
      Event.printed .build_options ∈ after_build (Tutorial2.main fails p d w h dp s).trace ∧
      Event.printed .build_log ∈ after_build (Tutorial2.main fails p d w h dp s).trace ∧
      Event.printed (.error .build)
        ∈ after_build (Tutorial2.main fails p d w h dp s).trace) ∧
    (after_build (LearningOpenCL.main fails).trace =
        [.issued (.getBuildInfo .log), .printed .error_building] ∧
      (LearningOpenCL.main fails).outcome = .exited 1) := by
  have hd := diagnostic_events .build
  have h3 : after_build (Tutorial3.main fails p d A G).trace =
      build_diagnostic.map Stmt.event ++ [.printed (.error .build)] := by
    rw [Tutorial3.main_build_failure fails p d A G hb hpre hq]
    exact after_build_append _ _ (build_not_in_select_and_load p d)
  have h2 : after_build (Tutorial2.main fails p d w h dp s).trace =
      build_diagnostic.map Stmt.event ++ [.printed (.error .build)] := by
    rw [Tutorial2.main2_build_failure fails p d w h dp s hb himg hpre hq]
    refine after_build_append _ _ ?_
    intro hm
    rcases List.mem_append.1 hm with hm | hm
    · exact Tutorial2.build_not_in_open_image hm
    · exact build_not_in_select_and_load p d hm
  have h0 : after_build (LearningOpenCL.main fails).trace =
      [.issued (.getBuildInfo .log), .printed .error_building] := by
    rw [LearningOpenCL.main0_build_failure fails hb]
    exact after_build_append _ _ LearningOpenCL.build_not_in_before_build
  refine ⟨⟨?_, ?_, ?_, ?_, ?_⟩, ⟨?_, ?_, ?_, ?_, ?_⟩, h0, ?_⟩
  · intro e he
    rw [h3] at he
    exact ⟨(hd.1 e he).1, (hd.1 e he).2.1, (hd.1 e he).2.2.1⟩
  · rw [h3]; exact List.mem_append_left _ hd.2.1
  · rw [h3]; exact List.mem_append_left _ hd.2.2.1
  · rw [h3]; exact List.mem_append_left _ hd.2.2.2
  · rw [h3]; simp
  · intro e he
    rw [h2] at he
    exact ⟨(hd.1 e he).1, (hd.1 e he).2.1, (hd.1 e he).2.2.1⟩
  · rw [h2]; exact List.mem_append_left _ hd.2.1
  · rw [h2]; exact List.mem_append_left _ hd.2.2.1
  · rw [h2]; exact List.mem_append_left _ hd.2.2.2
  · rw [h2]; simp
  · rw [LearningOpenCL.main0_build_failure fails hb]

/-- C7 as amended, when only the build fails, for the input of the program and
an image of two by two pixels with three channels. -/
theorem C7_build_failure_reported_witness :
    only .build .build = true ∧
    ((∀ e ∈ after_build (Tutorial3.main (only .build) 0 0 Tutorial3.A_init 10).trace,
        e.is_upload = false ∧ e.is_kernel_setup = false ∧ e.is_dispatch = false) ∧
      Event.printed .build_status
        ∈ after_build (Tutorial3.main (only .build) 0 0 Tutorial3.A_init 10).trace ∧
      Event.printed .build_options
        ∈ after_build (Tutorial3.main (only .build) 0 0 Tutorial3.A_init 10).trace ∧
      Event.printed .build_log
        ∈ after_build (Tutorial3.main (only .build) 0 0 Tutorial3.A_init 10).trace ∧
      Event.printed (.error .build)
        ∈ after_build (Tutorial3.main (only .build) 0 0 Tutorial3.A_init 10).trace) ∧
    ((∀ e ∈ after_build (Tutorial2.main (only .build) 0 0 2 2 1 3).trace,
        e.is_upload = false ∧ e.is_kernel_setup = false ∧ e.is_dispatch = false) ∧
      Event.printed .build_status
        ∈ after_build (Tutorial2.main (only .build) 0 0 2 2 1 3).trace ∧
      Event.printed .build_options
        ∈ after_build (Tutorial2.main (only .build) 0 0 2 2 1 3).trace ∧
      Event.printed .build_log
        ∈ after_build (Tutorial2.main (only .build) 0 0 2 2 1 3).trace ∧
      Event.printed (.error .build)
        ∈ after_build (Tutorial2.main (only .build) 0 0 2 2 1 3).trace) ∧
    (after_build (LearningOpenCL.main (only .build)).trace =
        [.issued (.getBuildInfo .log), .printed .error_building] ∧
      (LearningOpenCL.main (only .build)).outcome = .exited 1) :=
  ⟨by decide,
    C7_build_failure_reported (only .build) 0 0 Tutorial3.A_init 10 2 2 1 3 (by decide)
      (by simp [Tutorial2.open_image, only])
      (by simp [select_and_load, only])
      (by simp [build_diagnostic, only])⟩

/-- C8 fails on the code: tutorial1 is built without exceptions, so a failing
upload, dispatch or download returns a status that the program does not
inspect. In the run in which the first upload fails, the second upload, the
dispatch and the download are still issued, the run is the same as when
nothing fails, no error line is written and main returns 0; likewise when the
dispatch or the download fails. In tutorial3 the same failing upload is
followed by no other device command and ends with the error line. -/
theorem C8_tutorial1_ignores_device_errors :
    ((Tutorial1.main (only (.enqueueWriteBuffer .buffer_A 40 .A)) 0 0).trace.filter
        (fun e => e.is_upload || e.is_dispatch || e.is_download) =
        [.issued (.enqueueWriteBuffer .buffer_A 40 .A),
          .issued (.enqueueWriteBuffer .buffer_B 40 .B),
          .issued (.enqueueNDRangeKernel .kernel_add2d [10] []),
          .issued (.enqueueReadBuffer .buffer_C 40 .C)] ∧
      Tutorial1.main (only (.enqueueWriteBuffer .buffer_A 40 .A)) 0 0 =
        Tutorial1.main no_faults 0 0 ∧
      (Tutorial1.main (only (.enqueueWriteBuffer .buffer_A 40 .A)) 0 0).trace.any
        Event.is_error_report = false ∧
      (Tutorial1.main (only (.enqueueWriteBuffer .buffer_A 40 .A)) 0 0).outcome =
        .returned 0) ∧
    (Event.issued (.enqueueReadBuffer .buffer_C 40 .C)
        ∈ (Tutorial1.main (only (.enqueueNDRangeKernel .kernel_add2d [10] [])) 0 0).trace ∧
      (Tutorial1.main (only (.enqueueNDRangeKernel .kernel_add2d [10] [])) 0 0).trace.any
        Event.is_error_report = false ∧
      (Tutorial1.main (only (.enqueueNDRangeKernel .kernel_add2d [10] [])) 0 0).outcome =
        .returned 0) ∧
    ((Tutorial1.main (only (.enqueueReadBuffer .buffer_C 40 .C)) 0 0).trace.any
        Event.is_error_report = false ∧
      (Tutorial1.main (only (.enqueueReadBuffer .buffer_C 40 .C)) 0 0).outcome =
        .returned 0) ∧
    ((Tutorial3.main (only (.enqueueWriteBuffer .buffer_A 40 .A)) 0 0
          Tutorial3.A_init 10).trace.filter
        (fun e => e.is_upload || e.is_dispatch || e.is_download) =
        [.issued (.enqueueWriteBuffer .buffer_A 40 .A)] ∧
      (Tutorial3.main (only (.enqueueWriteBuffer .buffer_A 40 .A)) 0 0
          Tutorial3.A_init 10).trace.getLast? =
        some (.printed (.error (.enqueueWriteBuffer .buffer_A 40 .A)))) := by
  refine ⟨⟨?_, ?_, ?_, ?_⟩, ⟨?_, ?_, ?_⟩, ⟨?_, ?_⟩, ⟨?_, ?_⟩⟩ <;> decide

end Harness

/-! ## Part 9: the runs of `tutorial3.cpp` on an empty input and on a zero
work-group size -/

namespace Tutorial3

open Harness

/-- The error line is the last event of a run that ends in the handler. -/
theorem report_error_last (t : List Event) (o : Op) :
    (report_error t o).trace.getLast? = some (.printed (.error o)) := by
  simp [report_error]

/-- A run of `tutorial3.cpp` with a defined plan either issues every statement
or ends with the error line of a call that failed. -/
theorem main_runs_or_reports (fails : Op → Bool) (p d : Int) (A : List Int) (G : Nat)
    (pl : Plan) (hpl : plan A G neutral_element nr_bins = some pl) :
    (main fails p d A G).trace =
        (select_and_load p d).map Stmt.event ++ [.issued .build] ++
          (device_operations pl G INT_MAX INT_MIN).map Stmt.event ∨
      ∃ op, fails op = true ∧
        (main fails p d A G).trace.getLast? = some (.printed (.error op)) := by
  have hv : pl.min_value_vec = [INT_MAX] ∧ pl.max_value_vec = [INT_MIN] := by
    unfold plan at hpl
    split at hpl
    · cases hpl
    · injection hpl with hpl
      subst hpl
      exact ⟨rfl, rfl⟩
  unfold main
  simp only [hpl, hv.1, hv.2]
  cases hpre : (exec fails (select_and_load p d)).raised with
  | some e =>
    right
    exact ⟨e, (exec_raised fails _ e hpre).1, report_error_last _ _⟩
  | none =>
    by_cases hb : fails .build = true
    · right
      simp only [hb, if_true]
      cases hh : (exec fails build_diagnostic).raised with
      | some e => exact ⟨e, (exec_raised fails _ e hh).1, report_error_last _ _⟩
      | none => exact ⟨.build, hb, report_error_last _ _⟩
    · have hb' : fails .build = false := by simpa using hb
      simp only [hb', Bool.false_eq_true, if_false, List.getElem?_cons_zero]
      cases hr : (exec fails (device_operations pl G INT_MAX INT_MIN)).raised with
      | some e =>
        right
        exact ⟨e, (exec_raised fails _ e hr).1, report_error_last _ _⟩
      | none =>
        left
        simp only [exec_complete fails _ hpre, exec_complete fails _ hr]

/-- No statement before the build is an upload or creates or binds a kernel. -/
theorem select_and_load_no_device_work (p d : Int) :
    ∀ e ∈ (select_and_load p d).map Stmt.event,
      e.is_upload = false ∧ e.is_kernel_setup = false := by
  simp [select_and_load, Stmt.event, Event.is_upload, Event.is_kernel_setup]

/-- The device operations of a plan with a zero `input_size` stop at their
first statement when the runtime rejects a buffer of zero bytes. -/
theorem device_operations_rejected (fails : Op → Bool) (pl : Plan) (G : Nat) (mn mx : Int)
    (h0 : pl.input_size = 0) (hzero : fails (.Buffer .buffer_A 0) = true) :
    exec fails (device_operations pl G mn mx) =
      ⟨[.issued (.Buffer .buffer_A 0)], some (.Buffer .buffer_A 0)⟩ := by
  simp [device_operations, exec, h0, hzero]

/-- Where an event of a run of `tutorial3.cpp` on the empty input comes from
when the runtime rejects a buffer of zero bytes. -/
theorem main_empty_sources (fails : Op → Bool) (p d : Int) (G : Nat) (pl : Plan)
    (hpl : plan [] G neutral_element nr_bins = some pl) (h0 : pl.input_size = 0)
    (hzero : fails (.Buffer .buffer_A 0) = true)
    (e : Event) (he : e ∈ (main fails p d [] G).trace) :
    e ∈ (select_and_load p d).map Stmt.event ∨ e = .issued .build ∨
      e ∈ build_diagnostic.map Stmt.event ∨ (∃ o, e = .printed (.error o)) ∨
      e = .issued (.Buffer .buffer_A 0) := by
  have hv : pl.min_value_vec = [INT_MAX] ∧ pl.max_value_vec = [INT_MIN] := by
    unfold plan at hpl
    split at hpl
    · cases hpl
    · injection hpl with hpl
      subst hpl
      exact ⟨rfl, rfl⟩
  have hpre := exec_trace_subset fails (select_and_load p d) e
  have hdiag := exec_trace_subset fails build_diagnostic e
  unfold main at he
  simp only [hpl, hv.1, hv.2, List.getElem?_cons_zero,
    device_operations_rejected fails pl G INT_MAX INT_MIN h0 hzero] at he
  split at he
  · simp only [report_error, List.mem_append, List.mem_singleton] at he
    rcases he with he | he
    · exact Or.inl (hpre he)
    · exact Or.inr (Or.inr (Or.inr (Or.inl ⟨_, he⟩)))
  · split at he
    · split at he
      · simp only [report_error, List.mem_append, List.mem_singleton] at he
        rcases he with ((he | he) | he) | he
        · exact Or.inl (hpre he)
        · exact Or.inr (Or.inl he)
        · exact Or.inr (Or.inr (Or.inl (hdiag he)))
        · exact Or.inr (Or.inr (Or.inr (Or.inl ⟨_, he⟩)))
      · simp only [report_error, List.mem_append, List.mem_singleton] at he
        rcases he with ((he | he) | he) | he
        · exact Or.inl (hpre he)
        · exact Or.inr (Or.inl he)
        · exact Or.inr (Or.inr (Or.inl (hdiag he)))
        · exact Or.inr (Or.inr (Or.inr (Or.inl ⟨_, he⟩)))
    · simp only [report_error, List.mem_append, List.mem_singleton] at he
      rcases he with ((he | he) | he) | he
      · exact Or.inl (hpre he)
      · exact Or.inr (Or.inl he)
      · exact Or.inr (Or.inr (Or.inr (Or.inr he)))
      · exact Or.inr (Or.inr (Or.inr (Or.inl ⟨_, he⟩)))

/-- C9 fails on the code: tutorial3 has no check of the padded length. On the
empty input with the work-group size 10 of the program the plan has zero
elements and zero groups, and after the build the program asks the runtime for
a buffer of zero bytes; when the runtime rejects that size, the run ends in the
general handler with the error line of that call. No dispatch is issued, but
the program did not detect the empty input: it went on to its device
operations and ended as a failed run. -/
theorem C9_empty_input_not_detected :
    (plan [] 10 neutral_element nr_bins).map
        (fun pl => (pl.A, pl.input_elements, pl.input_size, pl.nr_groups)) =
      some ([], 0, 0, 0) ∧
    main (only (.Buffer .buffer_A 0)) 0 0 [] 10 =
      ⟨(select_and_load 0 0).map Stmt.event ++
        [.issued .build, .issued (.Buffer .buffer_A 0),
          .printed (.error (.Buffer .buffer_A 0))], .returned 0⟩ ∧
    (main (only (.Buffer .buffer_A 0)) 0 0 [] 10).trace.any Event.is_error_report = true ∧
    (main (only (.Buffer .buffer_A 0)) 0 0 [] 10).trace.any Event.is_dispatch = false := by
  refine ⟨?_, ?_, ?_, ?_⟩ <;> decide

/-- C9 as amended: for the empty input and every work-group size G ≥ 1 the plan
has padded length 0, zero bytes and zero groups. The program has no check for
this: once the build is reached and succeeds it creates buffer_A with zero
bytes. When the runtime rejects a buffer of zero bytes, that call raises, the
error is reported by the handler and the run ends; in every such run no
upload, no kernel creation or binding and no dispatch is issued, so no kernel
is launched with a zero global extent. -/
theorem C9_empty_input_rejected_by_runtime (G : Nat) (fails : Op → Bool) (p d : Int)
    (hG : 1 ≤ G) (hzero : fails (.Buffer .buffer_A 0) = true) :
    ∃ pl : Plan, plan [] G neutral_element nr_bins = some pl ∧
      pl.A = [] ∧ pl.input_elements = 0 ∧ pl.input_size = 0 ∧ pl.nr_groups = 0 ∧
      (∀ e ∈ (main fails p d [] G).trace,
        e.is_upload = false ∧ e.is_kernel_setup = false ∧ e.is_dispatch = false) ∧
      ((∀ op, Stmt.call op ∈ select_and_load p d → fails op = false) →
        fails .build = false →
        main fails p d [] G =
          ⟨(select_and_load p d).map Stmt.event ++
            [.issued .build, .issued (.Buffer .buffer_A 0),
              .printed (.error (.Buffer .buffer_A 0))], .returned 0⟩) := by
  have hp : pad [] G neutral_element = some [] := by
    rw [pad_of_pos [] G neutral_element hG]
    simp
  obtain ⟨pl, hpl, hA, hn, hg, hs, hmin, hmax⟩ :=
    plan_of_pad [] [] G neutral_element nr_bins hp
  have hn0 : pl.input_elements = 0 := by simpa using hn
  have hg0 : pl.nr_groups = 0 := by simpa using hg
  have hs0 : pl.input_size = 0 := by simpa using hs
  refine ⟨pl, hpl, hA, hn0, hs0, hg0, ?_, ?_⟩
  · intro e he
    rcases main_empty_sources fails p d G pl hpl hs0 hzero e he with h | h | h | h | h
    · exact ⟨(select_and_load_no_device_work p d e h).1,
        (select_and_load_no_device_work p d e h).2, select_and_load_no_dispatch p d e h⟩
    · subst h
      exact ⟨rfl, rfl, rfl⟩
    · have hd := (diagnostic_events .build).1 e (List.mem_append_left _ h)
      exact ⟨hd.1, hd.2.1, hd.2.2.1⟩
    · obtain ⟨o, h⟩ := h
      subst h
      exact ⟨rfl, rfl, rfl⟩
    · subst h
      exact ⟨rfl, rfl, rfl⟩
  · intro hpre hb
    unfold main
    simp only [exec_of_no_failure fails _ hpre, hb, hpl, hmin, hmax,
      List.getElem?_cons_zero,
      device_operations_rejected fails pl G INT_MAX INT_MIN hs0 hzero, report_error]
    simp

/-- C9 as amended, at the work-group size 10 of the program, when only the
creation of the buffer of zero bytes fails. -/
theorem C9_empty_input_rejected_by_runtime_witness :
    1 ≤ 10 ∧ only (.Buffer .buffer_A 0) (.Buffer .buffer_A 0) = true ∧
    ∃ pl : Plan, plan [] 10 neutral_element nr_bins = some pl ∧
      pl.A = [] ∧ pl.input_elements = 0 ∧ pl.input_size = 0 ∧ pl.nr_groups = 0 ∧
      (∀ e ∈ (main (only (.Buffer .buffer_A 0)) 0 0 [] 10).trace,
        e.is_upload = false ∧ e.is_kernel_setup = false ∧ e.is_dispatch = false) ∧
      ((∀ op, Stmt.call op ∈ select_and_load 0 0 →
          only (.Buffer .buffer_A 0) op = false) →
        only (.Buffer .buffer_A 0) .build = false →
        main (only (.Buffer .buffer_A 0)) 0 0 [] 10 =
          ⟨(select_and_load 0 0).map Stmt.event ++
            [.issued .build, .issued (.Buffer .buffer_A 0),
              .printed (.error (.Buffer .buffer_A 0))], .returned 0⟩) :=
  ⟨by decide, by decide,
    C9_empty_input_rejected_by_runtime 10 (only (.Buffer .buffer_A 0)) 0 0 (by decide)
      (by decide)⟩

/-- C10 fails on the code: with a work-group size of 0 nothing is rejected. In
the run in which no call fails the build is followed directly by the remainder
of line 73 with divisor 0, which is undefined; no error line is written. -/
theorem C10_zero_work_group_size_not_rejected :
    padding_size A_init 0 = none ∧
      plan A_init 0 neutral_element nr_bins = none ∧
      (main no_faults 0 0 A_init 0).outcome = .undefined ∧
      (main no_faults 0 0 A_init 0).trace.getLast? = some (.issued .build) ∧
      (main no_faults 0 0 A_init 0).trace.any Event.is_error_report = false := by
  refine ⟨?_, ?_, ?_, ?_, ?_⟩ <;> decide

/-- C10 as amended: tutorial3 has no check of the work-group size. The program
fixes local_size = 10; for every work-group size G ≥ 1 the plan uses G itself,
no default being substituted; with a work-group size of 0 and a build that is
reached and succeeds, the remainder of line 73 is evaluated with divisor 0,
which is undefined, and the run reports no configuration error. -/
theorem C10_zero_work_group_size_unchecked (A : List Int) (fails : Op → Bool) (p d : Int)
    (hpre : ∀ op, Stmt.call op ∈ select_and_load p d → fails op = false)
    (hb : fails .build = false) :
    local_size = 10 ∧
      padding_size A 0 = none ∧
      plan A 0 neutral_element nr_bins = none ∧
      main fails p d A 0 =
        ⟨(select_and_load p d).map Stmt.event ++ [.issued .build], .undefined⟩ ∧
      (main fails p d A 0).trace.any Event.is_error_report = false ∧
      (∀ G, 1 ≤ G → ∃ pl, plan A G neutral_element nr_bins = some pl ∧
        padding_size A G = some (A.length % G) ∧
        pl.nr_groups = pl.input_elements / G) := by
  have hplan : plan A 0 neutral_element nr_bins = none := by
    simp [plan, pad, padding_size]
  have hmain : main fails p d A 0 =
      ⟨(select_and_load p d).map Stmt.event ++ [.issued .build], .undefined⟩ := by
    unfold main
    simp only [exec_of_no_failure fails _ hpre, hb, hplan]
    simp
  refine ⟨rfl, by simp [padding_size], hplan, hmain, ?_, ?_⟩
  · rw [hmain]
    simp [select_and_load, Stmt.event, Event.is_error_report]
  · intro G hG
    have hp := pad_of_pos A G neutral_element hG
    obtain ⟨pl, hpl, -, hn, hg, -⟩ := plan_of_pad A _ G neutral_element nr_bins hp
    have h0 : G ≠ 0 := by omega
    exact ⟨pl, hpl, by simp [padding_size, h0], by rw [hg, hn]⟩

/-- C10 as amended, for the input of the program when no call fails. -/
theorem C10_zero_work_group_size_unchecked_witness :
    no_faults .build = false ∧
      (local_size = 10 ∧
      padding_size A_init 0 = none ∧
      plan A_init 0 neutral_element nr_bins = none ∧
      main no_faults 0 0 A_init 0 =
        ⟨(select_and_load 0 0).map Stmt.event ++ [.issued .build], .undefined⟩ ∧
      (main no_faults 0 0 A_init 0).trace.any Event.is_error_report = false ∧
      (∀ G, 1 ≤ G → ∃ pl, plan A_init G neutral_element nr_bins = some pl ∧
        padding_size A_init G = some (A_init.length % G) ∧
        pl.nr_groups = pl.input_elements / G)) :=
  ⟨rfl, C10_zero_work_group_size_unchecked A_init no_faults 0 0 (fun _ _ => rfl) rfl⟩

end Tutorial3

/-! ## Part 10: the argument loop -/

namespace Harness

/-- An element inside the argument vector can be read. -/
theorem argv_read (argv : List String) (i : Nat) (h : i < argv.length) :
    ∃ a, argv[i]? = some a :=
  ⟨argv[i], List.getElem?_eq_getElem h⟩

/-- One pass of the loop body at an index below `argc` reads no element past
the end, and when the loop goes on it does so at a larger index. -/
theorem arg_step_sound (atoi : String → Int) (argv : List String) (i : Nat) (st : ArgState)
    (hi : i < argv.length) :
    arg_step atoi argv i st ≠ .out_of_bounds ∧
      ∀ j st', arg_step atoi argv i st = .next j st' → i < j := by
  obtain ⟨a, ha⟩ := argv_read argv i hi
  unfold arg_step
  simp only [ha]
  by_cases hp : a = "-p" ∧ (i : Int) < (argv.length : Int) - 1
  · obtain ⟨v, hv⟩ := argv_read argv (i + 1) (by omega)
    simp only [hp, and_self, if_true, hv]
    refine ⟨by simp, ?_⟩
    intro j st' h
    injection h with h1 _
    omega
  · simp only [hp, if_false]
    by_cases hd : a = "-d" ∧ (i : Int) < (argv.length : Int) - 1
    · obtain ⟨v, hv⟩ := argv_read argv (i + 1) (by omega)
      simp only [hd, and_self, if_true, hv]
      refine ⟨by simp, ?_⟩
      intro j st' h
      injection h with h1 _
      omega
    · simp only [hd, if_false]
      by_cases hl : a = "-l"
      · simp only [hl, if_true]
        refine ⟨by simp, ?_⟩
        intro j st' h
        injection h with h1 _
        omega
      · simp only [hl, if_false]
        by_cases hh : a = "-h"
        · simp only [hh, if_true]
          exact ⟨by simp, by intro j st' h; cases h⟩
        · simp only [hh, if_false]
          refine ⟨by simp, ?_⟩
          intro j st' h
          injection h with h1 _
          omega

/-- The loop ends within as many passes as there are elements left, and never
by reading past the end. -/
theorem arg_loop_total (atoi : String → Int) (argv : List String) (fuel : Nat) :
    ∀ i st, argv.length ≤ i + fuel →
      ∃ r, arg_loop atoi argv fuel i st = some r ∧ r ≠ .out_of_bounds := by
  induction fuel with
  | zero =>
    intro i st h
    have hi : ¬ i < argv.length := by omega
    unfold arg_loop
    simp [hi]
  | succ n ih =>
    intro i st h
    unfold arg_loop
    by_cases hi : i < argv.length
    · simp only [hi, if_true]
      have hs := arg_step_sound atoi argv i st hi
      cases hstep : arg_step atoi argv i st with
      | next j st' =>
        have hj := hs.2 j st' hstep
        exact ih j st' (by omega)
      | help st' => exact ⟨_, rfl, by simp⟩
      | out_of_bounds => exact absurd hstep hs.1
    · simp [hi]

/-- C11: in the argument loop of tutorial1 and tutorial3, for every argument
list, an argument that is none of -p, -d, -l, -h and is reached in flag
position leaves platform_id and device_id (and the output) unchanged, the loop
going on at the next index; a -p or -d that is the final argument leaves them
unchanged and ends the loop; no pass reads an element past the end of the
argument list, and the loop always ends. -/
theorem C11_unknown_and_valueless_flags (atoi : String → Int) (argv : List String) :
    (∀ i st a, argv[i]? = some a → a ≠ "-p" → a ≠ "-d" → a ≠ "-l" → a ≠ "-h" →
      arg_step atoi argv i st = .next (i + 1) st ∧
        ∀ fuel, arg_loop atoi argv (fuel + 1) i st = arg_loop atoi argv fuel (i + 1) st) ∧
    (∀ i st a, argv[i]? = some a → (a = "-p" ∨ a = "-d") → i + 1 = argv.length →
      arg_step atoi argv i st = .next (i + 1) st ∧
        ∀ fuel, arg_loop atoi argv (fuel + 1) i st = some (.finished st)) ∧
    (∀ i st, i < argv.length → arg_step atoi argv i st ≠ .out_of_bounds) ∧
    (∃ r, parse_arguments atoi argv = some r ∧ r ≠ .out_of_bounds) := by
  refine ⟨?_, ?_, ?_, ?_⟩
  · intro i st a ha hp hd hl hh
    have hstep : arg_step atoi argv i st = .next (i + 1) st := by
      unfold arg_step
      simp [ha, hp, hd, hl, hh]
    have hi : i < argv.length := by
      by_contra hn
      rw [List.getElem?_eq_none (by omega)] at ha
      cases ha
    refine ⟨hstep, ?_⟩
    intro fuel
    rw [arg_loop]
    simp only [hi, if_true, hstep]
  · intro i st a ha hpd hlast
    have hlt : ¬ ((i : Int) < (argv.length : Int) - 1) := by omega
    have hstep : arg_step atoi argv i st = .next (i + 1) st := by
      unfold arg_step
      rcases hpd with h | h <;> subst h <;> simp [ha, hlt]
    have hi : i < argv.length := by omega
    have hend : ¬ (i + 1 < argv.length) := by omega
    refine ⟨hstep, ?_⟩
    intro fuel
    rw [arg_loop]
    simp only [hi, if_true, hstep]
    unfold arg_loop
    simp only [hend, if_false]
  · intro i st hi
    exact (arg_step_sound atoi argv i st hi).1
  · exact arg_loop_total atoi argv argv.length 1 ArgState.init (by omega)

/-- C11 on the argument list `tutorial3 -p 1 -x -d`: the unknown `-x` at index
3 and the final `-d` at index 4 change nothing. -/
theorem C11_unknown_and_valueless_flags_witness :
    arg_step atoi_small ["tutorial3", "-p", "1", "-x", "-d"] 3 ⟨1, 0, 0⟩ =
        .next 4 ⟨1, 0, 0⟩ ∧
      arg_step atoi_small ["tutorial3", "-p", "1", "-x", "-d"] 4 ⟨1, 0, 0⟩ =
        .next 5 ⟨1, 0, 0⟩ ∧
      arg_loop atoi_small ["tutorial3", "-p", "1", "-x", "-d"] 1 4 ⟨1, 0, 0⟩ =
        some (.finished ⟨1, 0, 0⟩) ∧
      parse_arguments atoi_small ["tutorial3", "-p", "1", "-x", "-d"] =
        some (.finished ⟨1, 0, 0⟩) :=
  ⟨((C11_unknown_and_valueless_flags atoi_small
        ["tutorial3", "-p", "1", "-x", "-d"]).1 3 ⟨1, 0, 0⟩ "-x" (by decide)
        (by decide) (by decide) (by decide) (by decide)).1,
    ((C11_unknown_and_valueless_flags atoi_small
        ["tutorial3", "-p", "1", "-x", "-d"]).2.1 4 ⟨1, 0, 0⟩ "-d" (by decide)
        (Or.inr rfl) (by decide)).1,
    ((C11_unknown_and_valueless_flags atoi_small
        ["tutorial3", "-p", "1", "-x", "-d"]).2.1 4 ⟨1, 0, 0⟩ "-d" (by decide)
        (Or.inr rfl) (by decide)).2 0,
    by decide⟩

end Harness

/-! ## Part 11: the sizes of the uploads -/

namespace Tutorial3

open Harness

/-- For every input and every work-group size G ≥ 1 the upload of `A` stays
inside the vector and inside `buffer_A`, while the uploads of the two
accumulators transfer `output_size` = 40 bytes from vectors of one `int`. -/
theorem upload_sizes (A : List Int) (G : Nat) (hG : 1 ≤ G) :
    ∃ pl, plan A G neutral_element nr_bins = some pl ∧
      uploads (device_operations pl G INT_MAX INT_MIN) =
        [(.buffer_A, pl.input_size, .A), (.buffer_min, pl.output_size, .min_value_vec),
          (.buffer_max, pl.output_size, .max_value_vec)] ∧
      capacity .buffer_A (device_operations pl G INT_MAX INT_MIN) = some pl.input_size ∧
      capacity .buffer_min (device_operations pl G INT_MAX INT_MIN) = some pl.output_size ∧
      capacity .buffer_max (device_operations pl G INT_MAX INT_MIN) = some pl.output_size ∧
      pl.input_size ≤ sizeof_mytype * pl.A.length ∧
      pl.output_size = 40 ∧
      sizeof_mytype * pl.min_value_vec.length = 4 ∧
      sizeof_mytype * pl.max_value_vec.length = 4 ∧
      LearningOpenCL.host_read pl.min_value_vec pl.output_size = none ∧
      LearningOpenCL.host_read pl.max_value_vec pl.output_size = none := by
  have hp := pad_of_pos A G neutral_element hG
  obtain ⟨pl, hpl, -, -, -, -, -, -⟩ := plan_of_pad A _ G neutral_element nr_bins hp
  have hfields : pl.input_size = (pl.A.length * sizeof_mytype) % SIZE_RANGE ∧
      pl.output_size = 40 ∧ pl.min_value_vec = [INT_MAX] ∧ pl.max_value_vec = [INT_MIN] := by
    unfold plan at hpl
    split at hpl
    · cases hpl
    · injection hpl with hpl
      subst hpl
      exact ⟨rfl, rfl, rfl, rfl⟩
  obtain ⟨hin, hout, hmin, hmax⟩ := hfields
  refine ⟨pl, hpl, ?_, ?_, ?_, ?_, ?_, hout, ?_, ?_, ?_, ?_⟩
  · simp [device_operations, uploads, profiling_report]
  · simp [device_operations, capacity]
  · simp [device_operations, capacity]
  · simp [device_operations, capacity]
  · rw [hin, Nat.mul_comm]
    exact Nat.mod_le _ _
  · rw [hmin]; rfl
  · rw [hmax]; rfl
  · rw [hmin, hout]; decide
  · rw [hmax, hout]; decide

end Tutorial3

namespace Harness

/-- C12 fails on the code. In tutorial3, for the input of the program, the
upload of A transfers 40 bytes from a vector of 40 bytes into a buffer of 40
bytes, but the uploads of min_value_vec and max_value_vec transfer
output_size = 40 bytes from vectors of one int, 4 bytes, so they read past the
end of the host vector. In main.cpp the upload of A_h transfers 40 bytes from
an array of 44 bytes, but the upload of B_h transfers 40 bytes from an array of
nine ints, 36 bytes. Every transfer fits its device buffer. -/
theorem C12_uploads_read_past_host_arrays :
    (∃ pl, Tutorial3.plan Tutorial3.A_init Tutorial3.local_size Tutorial3.neutral_element
          Tutorial3.nr_bins = some pl ∧
        uploads (Tutorial3.device_operations pl Tutorial3.local_size
            Tutorial3.INT_MAX Tutorial3.INT_MIN) =
          [(.buffer_A, 40, .A), (.buffer_min, 40, .min_value_vec),
            (.buffer_max, 40, .max_value_vec)] ∧
        [BufferId.buffer_A, .buffer_min, .buffer_max].map
            (fun b => capacity b (Tutorial3.device_operations pl Tutorial3.local_size
              Tutorial3.INT_MAX Tutorial3.INT_MIN)) =
          [some 40, some 40, some 40] ∧
        [HostId.A, .min_value_vec, .max_value_vec].map
            (fun h => (Tutorial3.host_array pl h).map
              (fun arr => Tutorial3.sizeof_mytype * arr.length)) =
          [some 40, some 4, some 4] ∧
        LearningOpenCL.host_read pl.A 40 = some Tutorial3.A_init ∧
        LearningOpenCL.host_read pl.min_value_vec 40 = none ∧
        LearningOpenCL.host_read pl.max_value_vec 40 = none) ∧
    uploads LearningOpenCL.before_build = [(.A_d, 40, .A_h), (.B_d, 40, .B_h)] ∧
    [BufferId.A_d, .B_d].map (fun b => capacity b LearningOpenCL.before_build) =
      [some 40, some 40] ∧
    [HostId.A_h, .B_h].map
        (fun h => (LearningOpenCL.host_array h).map
          (fun arr => LearningOpenCL.sizeof_int * arr.length)) =
      [some 44, some 36] ∧
    LearningOpenCL.host_read LearningOpenCL.A_h 40 = some [0, 1, 2, 3, 4, 5, 6, 7, 8, 9] ∧
    LearningOpenCL.host_read LearningOpenCL.B_h 40 = none := by
  refine ⟨⟨_, rfl, ?_, ?_, ?_, ?_, ?_, ?_⟩, ?_, ?_, ?_, ?_, ?_⟩ <;> decide

end Harness

/-! ## Part 12: the bounds bound to `hist_complex` -/

namespace Tutorial3

open Harness

/-- Where an event of a run of `tutorial3.cpp` with a defined plan comes from;
the device operations are those with `INT_MAX` and `INT_MIN` read from the
accumulators. -/
theorem main_trace_sources (fails : Op → Bool) (p d : Int) (A : List Int) (G : Nat)
    (pl : Plan) (hpl : plan A G neutral_element nr_bins = some pl)
    (e : Event) (he : e ∈ (main fails p d A G).trace) :
    e ∈ (select_and_load p d).map Stmt.event ∨ e = .issued .build ∨
      e ∈ build_diagnostic.map Stmt.event ∨ (∃ o, e = .printed (.error o)) ∨
      e ∈ (device_operations pl G INT_MAX INT_MIN).map Stmt.event := by
  have hv : pl.min_value_vec = [INT_MAX] ∧ pl.max_value_vec = [INT_MIN] := by
    unfold plan at hpl
    split at hpl
    · cases hpl
    · injection hpl with hpl
      subst hpl
      exact ⟨rfl, rfl⟩
  have hpre := exec_trace_subset fails (select_and_load p d) e
  have hdiag := exec_trace_subset fails build_diagnostic e
  have hdev := exec_trace_subset fails (device_operations pl G INT_MAX INT_MIN) e
  unfold main at he
  simp only [hpl, hv.1, hv.2, List.getElem?_cons_zero] at he
  split at he
  · simp only [report_error, List.mem_append, List.mem_singleton] at he
    rcases he with he | he
    · exact Or.inl (hpre he)
    · exact Or.inr (Or.inr (Or.inr (Or.inl ⟨_, he⟩)))
  · split at he
    · split at he
      · simp only [report_error, List.mem_append, List.mem_singleton] at he
        rcases he with ((he | he) | he) | he
        · exact Or.inl (hpre he)
        · exact Or.inr (Or.inl he)
        · exact Or.inr (Or.inr (Or.inl (hdiag he)))
        · exact Or.inr (Or.inr (Or.inr (Or.inl ⟨_, he⟩)))
      · simp only [report_error, List.mem_append, List.mem_singleton] at he
        rcases he with ((he | he) | he) | he
        · exact Or.inl (hpre he)
        · exact Or.inr (Or.inl he)
        · exact Or.inr (Or.inr (Or.inl (hdiag he)))
        · exact Or.inr (Or.inr (Or.inr (Or.inl ⟨_, he⟩)))
    · split at he
      · simp only [report_error, List.mem_append, List.mem_singleton] at he
        rcases he with ((he | he) | he) | he
        · exact Or.inl (hpre he)
        · exact Or.inr (Or.inl he)
        · exact Or.inr (Or.inr (Or.inr (Or.inr (hdev he))))
        · exact Or.inr (Or.inr (Or.inr (Or.inl ⟨_, he⟩)))
      · simp only [List.mem_append, List.mem_singleton] at he
        rcases he with (he | he) | he
        · exact Or.inl (hpre he)
        · exact Or.inr (Or.inl he)
        · exact Or.inr (Or.inr (Or.inr (Or.inr (hdev he))))

/-- Outside the device operations no event binds a kernel argument or is a
download. -/
theorem no_binding_outside (p d : Int) (e : Event)
    (h : e ∈ (select_and_load p d).map Stmt.event ∨ e = .issued .build ∨
      e ∈ build_diagnostic.map Stmt.event ∨ ∃ o, e = .printed (.error o)) :
    e.is_kernel_setup = false ∧ e.is_download = false := by
  rcases h with h | h | h | ⟨o, h⟩
  · revert e
    simp [select_and_load, Stmt.event, Event.is_kernel_setup, Event.is_download]
  · subst h
    exact ⟨rfl, rfl⟩
  · revert e
    simp [build_diagnostic, Stmt.event, Event.is_kernel_setup, Event.is_download]
  · subst h
    exact ⟨rfl, rfl⟩

/-- Among the device operations, arguments 3 and 4 of `hist_kernel` are bound
to the two values read from the accumulators, and the only download is the
read-back of `buffer_B`. -/
theorem bindings_of_device_operations (pl : Plan) (G : Nat) (mn mx : Int) :
    (∀ a, Event.issued (.setArg .hist_kernel 3 a)
        ∈ (device_operations pl G mn mx).map Stmt.event → a = .int mn) ∧
    (∀ a, Event.issued (.setArg .hist_kernel 4 a)
        ∈ (device_operations pl G mn mx).map Stmt.event → a = .int mx) ∧
    (∀ e ∈ (device_operations pl G mn mx).map Stmt.event, e.is_download = true →
      e = .issued (.enqueueReadBuffer .buffer_B pl.output_size .B)) := by
  refine ⟨?_, ?_, ?_⟩
  · simp [device_operations, profiling_report, Stmt.event]
  · simp [device_operations, profiling_report, Stmt.event]
  · simp [device_operations, profiling_report, Stmt.event, Event.is_download]

/-- The fold of `min` stays below its start value. -/
theorem foldl_min_le (xs : List Int) (x : Int) : xs.foldl min x ≤ x := by
  induction xs generalizing x with
  | nil => simp
  | cons y ys ih =>
    rw [List.foldl_cons]
    exact le_trans (ih (min x y)) (min_le_left x y)

/-- The fold of `max` stays above its start value. -/
theorem le_foldl_max (xs : List Int) (x : Int) : x ≤ xs.foldl max x := by
  induction xs generalizing x with
  | nil => simp
  | cons y ys ih =>
    rw [List.foldl_cons]
    exact le_trans (le_max_left x y) (ih (max x y))

/-- The minimum of a vector is at most its maximum. -/
theorem minimum_le_maximum (A : List Int) (m M : Int) (hm : minimum A = some m)
    (hM : maximum A = some M) : m ≤ M := by
  cases A with
  | nil => cases hm
  | cons x xs =>
    simp only [minimum, Option.some.injEq] at hm
    simp only [maximum, Option.some.injEq] at hM
    rw [← hm, ← hM]
    exact le_trans (foldl_min_le xs x) (le_foldl_max xs x)

/-- C13: for every input vector and every work-group size G ≥ 1, in every run
of tutorial3 arguments 3 and 4 of hist_complex are bound to INT_MAX and INT_MIN,
the initial values of min_value_vec and max_value_vec, and they are bound when
no call fails; no run dispatches reduce_min or reduce_max or reads back
buffer_min or buffer_max (the only dispatch is that of scan_add and the only
download that of buffer_B); the pair is not the minimum and maximum of the
input; the lower bound exceeds the upper bound, and no input element lies in
the bound range. -/
theorem C13_hist_complex_bounds (A : List Int) (G : Nat) (hG : 1 ≤ G) :
    ∃ pl : Plan, plan A G neutral_element nr_bins = some pl ∧
      pl.min_value_vec = [INT_MAX] ∧ pl.max_value_vec = [INT_MIN] ∧
      (∀ fails p d a, Event.issued (.setArg .hist_kernel 3 a)
        ∈ (main fails p d A G).trace → a = .int INT_MAX) ∧
      (∀ fails p d a, Event.issued (.setArg .hist_kernel 4 a)
        ∈ (main fails p d A G).trace → a = .int INT_MIN) ∧
      (∀ p d, Event.issued (.setArg .hist_kernel 3 (.int INT_MAX))
          ∈ (main no_faults p d A G).trace ∧
        Event.issued (.setArg .hist_kernel 4 (.int INT_MIN))
          ∈ (main no_faults p d A G).trace) ∧
      (∀ fails p d e, e ∈ (main fails p d A G).trace → e.is_dispatch = true →
        e = .issued (.enqueueNDRangeKernel .scan_add_kernel [pl.input_elements] [G])) ∧
      (∀ fails p d e, e ∈ (main fails p d A G).trace → e.is_download = true →
        e = .issued (.enqueueReadBuffer .buffer_B pl.output_size .B)) ∧
      (∀ m M, minimum A = some m → maximum A = some M → (INT_MAX, INT_MIN) ≠ (m, M)) ∧
      INT_MIN < INT_MAX ∧
      (∀ x, in_range INT_MAX INT_MIN x = false) ∧
      counted INT_MAX INT_MIN A = 0 ∧
      counted INT_MAX INT_MIN pl.A = 0 := by
  have hp := pad_of_pos A G neutral_element hG
  obtain ⟨pl, hpl, -, -, -, -, hmin, hmax⟩ := plan_of_pad A _ G neutral_element nr_bins hp
  have hrange : ∀ x, in_range INT_MAX INT_MIN x = false := by
    intro x
    unfold in_range INT_MAX INT_MIN
    by_cases h1 : (2147483647 : Int) ≤ x
    · have h2 : ¬ x ≤ -2147483648 := by omega
      simp [h1, h2]
    · simp [h1]
  have hcount : ∀ l : List Int, counted INT_MAX INT_MIN l = 0 := by
    intro l
    unfold counted
    rw [List.countP_eq_zero]
    intro x _
    simp [hrange x]
  refine ⟨pl, hpl, hmin, hmax, ?_, ?_, ?_, ?_, ?_, ?_, by decide, hrange, hcount A,
    hcount pl.A⟩
  · intro fails p d a ha
    rcases main_trace_sources fails p d A G pl hpl _ ha with h | h | h | h | h
    · have := (no_binding_outside p d _ (Or.inl h)).1
      simp [Event.is_kernel_setup] at this
    · cases h
    · have := (no_binding_outside p d _ (Or.inr (Or.inr (Or.inl h)))).1
      simp [Event.is_kernel_setup] at this
    · obtain ⟨o, h⟩ := h
      cases h
    · exact (bindings_of_device_operations pl G INT_MAX INT_MIN).1 a h
  · intro fails p d a ha
    rcases main_trace_sources fails p d A G pl hpl _ ha with h | h | h | h | h
    · have := (no_binding_outside p d _ (Or.inl h)).1
      simp [Event.is_kernel_setup] at this
    · cases h
    · have := (no_binding_outside p d _ (Or.inr (Or.inr (Or.inl h)))).1
      simp [Event.is_kernel_setup] at this
    · obtain ⟨o, h⟩ := h
      cases h
    · exact (bindings_of_device_operations pl G INT_MAX INT_MIN).2.1 a h
  · intro p d
    rw [(main_no_faults p d A G pl hpl).1]
    constructor <;> simp [device_operations, Stmt.event]
  · intro fails p d e he hd
    obtain ⟨pl', hpl', he'⟩ := main_dispatch fails p d A G e he hd
    rw [hpl] at hpl'
    injection hpl' with hpl'
    subst hpl'
    exact he'
  · intro fails p d e he hd
    rcases main_trace_sources fails p d A G pl hpl e he with h | h | h | h | h
    · rw [(no_binding_outside p d e (Or.inl h)).2] at hd
      cases hd
    · rw [(no_binding_outside p d e (Or.inr (Or.inl h))).2] at hd
      cases hd
    · rw [(no_binding_outside p d e (Or.inr (Or.inr (Or.inl h)))).2] at hd
      cases hd
    · rw [(no_binding_outside p d e (Or.inr (Or.inr (Or.inr h)))).2] at hd
      cases hd
    · exact (bindings_of_device_operations pl G INT_MAX INT_MIN).2.2 e h hd
  · intro m M hm hM heq
    have hle := minimum_le_maximum A m M hm hM
    have h1 : INT_MAX = m := congrArg Prod.fst heq
    have h2 : INT_MIN = M := congrArg Prod.snd heq
    rw [← h1, ← h2] at hle
    exact absurd hle (by decide)

/-- C13 at the input of the program, ten ones with a work-group size of 10. -/
theorem C13_hist_complex_bounds_witness :
    1 ≤ local_size ∧
    ∃ pl : Plan, plan A_init local_size neutral_element nr_bins = some pl ∧
      pl.min_value_vec = [INT_MAX] ∧ pl.max_value_vec = [INT_MIN] ∧
      (∀ fails p d a, Event.issued (.setArg .hist_kernel 3 a)
        ∈ (main fails p d A_init local_size).trace → a = .int INT_MAX) ∧
      (∀ fails p d a, Event.issued (.setArg .hist_kernel 4 a)
        ∈ (main fails p d A_init local_size).trace → a = .int INT_MIN) ∧
      (∀ p d, Event.issued (.setArg .hist_kernel 3 (.int INT_MAX))
          ∈ (main no_faults p d A_init local_size).trace ∧
        Event.issued (.setArg .hist_kernel 4 (.int INT_MIN))
          ∈ (main no_faults p d A_init local_size).trace) ∧
      (∀ fails p d e, e ∈ (main fails p d A_init local_size).trace →
        e.is_dispatch = true →
        e = .issued (.enqueueNDRangeKernel .scan_add_kernel [pl.input_elements]
          [local_size])) ∧
      (∀ fails p d e, e ∈ (main fails p d A_init local_size).trace →
        e.is_download = true →
        e = .issued (.enqueueReadBuffer .buffer_B pl.output_size .B)) ∧
      (∀ m M, minimum A_init = some m → maximum A_init = some M →
        (INT_MAX, INT_MIN) ≠ (m, M)) ∧
      INT_MIN < INT_MAX ∧
      (∀ x, in_range INT_MAX INT_MIN x = false) ∧
      counted INT_MAX INT_MIN A_init = 0 ∧
      counted INT_MAX INT_MIN pl.A = 0 :=
  ⟨by decide, C13_hist_complex_bounds A_init local_size (by decide)⟩

end Tutorial3
